import Mathlib

/-
  Verification development for the fyne-x Adwaita theme generators
  (theme/adwaita_colors_generator.go, the earlier generator, and
  theme/adwaita_theme_generator.go, the current one).

  Strings are modelled as lists of characters (the pages and paths that the
  generators handle are ASCII, so Go byte positions coincide with character
  positions).  Go (value, err) returns are modelled as pairs with an Option
  error component; Go runtime panics (index out of range) are modelled by the
  GoR result type.  External collaborators (the HTTP client, the tar
  extraction, go/format.Source, the fyne resource loader, the inkscape
  subprocess, the filesystem) are modelled as oracle parameters; everything
  else is translated from the Go source.
-/

abbrev Str := List Char

/-- Shorthand turning a string literal into the character-list representation. -/
def str (s : String) : Str := s.toList

/-- Model of an RGBA color (Go color.RGBA with uint8 fields; all assignments
keep the fields below 256). -/
structure RGBA where
  r : Nat
  g : Nat
  b : Nat
  a : Nat
deriving DecidableEq

/-- The zero value of color.RGBA. -/
def rgbaZero : RGBA := { r := 0, g := 0, b := 0, a := 0 }

/-- Error from fmt.Sscanf in stringToColor (the message text is irrelevant to
the generators, which only test err for nil). -/
inductive ParseErr where
  | scan
deriving DecidableEq

/-- The variant argument of getWidgetColorFor; call sites pass only the
strings "light" and "dark". -/
inductive Variant where
  | light
  | dark
deriving DecidableEq

/-- Result of a Go computation that can panic (index out of range). -/
inductive GoR (α : Type) where
  | panic
  | ok (val : α)
deriving DecidableEq

/- ------------------------------------------------------------------ -/
/- String scanning primitives                                          -/
/- ------------------------------------------------------------------ -/

/-- Split a string around the first (leftmost) occurrence of the pattern:
returns the part before the match and the part after it. -/
def splitFirst (pat : Str) : Str → Option (Str × Str)
  | [] => none
  | c :: cs =>
    if pat.isPrefixOf (c :: cs) then some ([], (c :: cs).drop pat.length)
    else
      match splitFirst pat cs with
      | some (pre, post) => some (c :: pre, post)
      | none => none

/-- Model of Go strings.Contains (the patterns used are never empty). -/
def containsStr (s pat : Str) : Bool := (splitFirst pat s).isSome

/- ------------------------------------------------------------------ -/
/- The two regular expressions of the generators                       -/
/- ------------------------------------------------------------------ -/

/-- Worker for findTableRows, structurally recursive on a fuel argument so
that it evaluates inside the kernel; the fuel is the length of the remaining
string, and every loop iteration consumes at least the nine characters of the
two tags, so the zero-fuel branch is unreachable (findTableRowsAux_irrel
below makes the fuel immaterial). -/
def findTableRowsAux : Nat → Str → List Str
  | 0, _ => []
  | fuel + 1, s =>
    match splitFirst (str "<tr>") s with
    | none => []
    | some pr =>
      match splitFirst (str "</tr>") pr.2 with
      | none => []
      | some pr2 =>
        (str "<tr>" ++ pr2.1 ++ str "</tr>") :: findTableRowsAux fuel pr2.2

/-- Model of tableRowMatcher.FindAllStringSubmatch(page, -1) for the pattern
(?s)<tr>(.*?)</tr>: leftmost non-overlapping matches; each returned element
is the full match row[0], i.e. the tags together with the lazily-matched
content between them. -/
def findTableRows (s : Str) : List Str := findTableRowsAux s.length s

/-- Worker for findColorCells; the fuel argument makes the recursion
structural, every iteration consumes at least the four characters of the
opening tag, and findColorCellsAux_irrel below makes the fuel immaterial. -/
def findColorCellsAux : Nat → Str → List Str
  | 0, _ => []
  | fuel + 1, s =>
    match splitFirst (str "<tt>") s with
    | none => []
    | some pr =>
      if (str "rgba").isPrefixOf pr.2 then
        match splitFirst (str "</tt>") (pr.2.drop 4) with
        | none => []
        | some pr2 => (str "rgba" ++ pr2.1) :: findColorCellsAux fuel pr2.2
      else if (str "#").isPrefixOf pr.2 then
        match splitFirst (str "</tt>") (pr.2.drop 1) with
        | none => []
        | some pr2 => (str "#" ++ pr2.1) :: findColorCellsAux fuel pr2.2
      else
        findColorCellsAux fuel pr.2

/-- Model of tableColorCellMatcher.FindAllStringSubmatch(row, -1) for the
pattern (?s)<tt>((?:rgba|#).*?)</tt>: each returned element is the capture
group c[i][1], which must start with "rgba" or "#" and runs lazily up to the
first following </tt>.  A <tt> that is not followed by "rgba" or "#" starts
no match, and the scan continues behind it (the "<tt>" literal cannot overlap
itself); when no closing </tt> exists after the capture start there is no
closing tag later in the string either, so the scan is finished. -/
def findColorCells (s : Str) : List Str := findColorCellsAux s.length s

/- ------------------------------------------------------------------ -/
/- stringToColor                                                       -/
/- ------------------------------------------------------------------ -/

/-- Value of a hexadecimal digit as scanned by fmt.Sscanf %x. -/
def hexDigitVal (c : Char) : Option Nat :=
  if '0' ≤ c ∧ c ≤ '9' then some (c.toNat - '0'.toNat)
  else if 'a' ≤ c ∧ c ≤ 'f' then some (c.toNat - 'a'.toNat + 10)
  else if 'A' ≤ c ∧ c ≤ 'F' then some (c.toNat - 'A'.toNat + 10)
  else none

/-- Two hex digits scanned by a %02x verb (both characters must be digits;
on a scan failure the partially consumed digits are not observable because
every caller aborts on a non-nil error). -/
def hexPairVal (c1 c2 : Char) : Option Nat :=
  match hexDigitVal c1, hexDigitVal c2 with
  | some h, some l => some (16 * h + l)
  | _, _ => none

/-- Leading spaces skipped by fmt verbs and by blanks in the format string. -/
def skipSp (s : Str) : Str := s.dropWhile (fun c => c = ' ')

/-- Decimal digit run. -/
def takeDigits (s : Str) : Str × Str := (s.takeWhile Char.isDigit, s.dropWhile Char.isDigit)

/-- Numeric value of a digit run. -/
def digitsToNat (ds : Str) : Nat := ds.foldl (fun acc c => 10 * acc + (c.toNat - '0'.toNat)) 0

/-- Model of a %d scan into a uint8 target: skips spaces, reads digits, and
fails when the value overflows uint8 (Go reports a range error and leaves the
target unassigned).  Signed input does not occur on the color page. -/
def parseU8 (s : Str) : Option (Nat × Str) :=
  let s1 := skipSp s
  let dr := takeDigits s1
  if dr.1 = [] then none
  else if digitsToNat dr.1 < 256 then some (digitsToNat dr.1, dr.2) else none

/-- Literal text in an Sscanf format string: must match exactly. -/
def dropLit (lit s : Str) : Option Str :=
  if lit.isPrefixOf s then some (s.drop lit.length) else none

/-- Model of a %f scan, as a pair numerator/denominator: the alpha values on
the color page are plain decimals (digits with an optional fraction), which
float32 arithmetic represents closely enough that uint8(a*255) agrees with
exact rational evaluation for the page's values. -/
def parseDec (s : Str) : Option ((Nat × Nat) × Str) :=
  let s1 := skipSp s
  let ir := takeDigits s1
  if ir.1 = [] then none
  else
    match ir.2 with
    | '.' :: r2 =>
      let fr := takeDigits r2
      if fr.1 = [] then none
      else some ((digitsToNat ir.1 * 10 ^ fr.1.length + digitsToNat fr.1, 10 ^ fr.1.length), fr.2)
    | r1 => some ((digitsToNat ir.1, 1), r1)

/-- The default branch of stringToColor: fmt.Sscanf(s, "rgba(%d, %d, %d, %f)")
followed by c.A = uint8(a*255).  The alpha assignment happens on every path
(a is zero when the %f verb was not reached), so A ends up 0 on scan errors
before the %f verb; fields scanned before a failure keep their values. -/
def stringToColorRgba (s : Str) : RGBA × Option ParseErr :=
  match dropLit (str "rgba(") s with
  | none => ({ r := 0, g := 0, b := 0, a := 0 }, some .scan)
  | some s1 =>
    match parseU8 s1 with
    | none => ({ r := 0, g := 0, b := 0, a := 0 }, some .scan)
    | some (rv, s2) =>
      match dropLit (str ",") s2 with
      | none => ({ r := rv, g := 0, b := 0, a := 0 }, some .scan)
      | some s3 =>
        match parseU8 s3 with
        | none => ({ r := rv, g := 0, b := 0, a := 0 }, some .scan)
        | some (gv, s4) =>
          match dropLit (str ",") s4 with
          | none => ({ r := rv, g := gv, b := 0, a := 0 }, some .scan)
          | some s5 =>
            match parseU8 s5 with
            | none => ({ r := rv, g := gv, b := 0, a := 0 }, some .scan)
            | some (bv, s6) =>
              match dropLit (str ",") s6 with
              | none => ({ r := rv, g := gv, b := bv, a := 0 }, some .scan)
              | some s7 =>
                match parseDec s7 with
                | none => ({ r := rv, g := gv, b := bv, a := 0 }, some .scan)
                | some ((an, ad), s8) =>
                  let av := an * 255 / ad % 256
                  match dropLit (str ")") s8 with
                  | none => ({ r := rv, g := gv, b := bv, a := av }, some .scan)
                  | some _ => ({ r := rv, g := gv, b := bv, a := av }, none)

/-- Model of stringToColor: c.A starts at 0xff; a 7-byte string is scanned as
"#%02x%02x%02x", a 9-byte string as "#%02x%02x%02x%02x", anything else via
the rgba(...) branch. -/
def stringToColor (s : Str) : RGBA × Option ParseErr :=
  if s.length = 7 then
    match s with
    | c0 :: c1 :: c2 :: c3 :: c4 :: c5 :: c6 :: [] =>
      if c0 = '#' then
        match hexPairVal c1 c2 with
        | none => ({ r := 0, g := 0, b := 0, a := 0xff }, some .scan)
        | some rv =>
          match hexPairVal c3 c4 with
          | none => ({ r := rv, g := 0, b := 0, a := 0xff }, some .scan)
          | some gv =>
            match hexPairVal c5 c6 with
            | none => ({ r := rv, g := gv, b := 0, a := 0xff }, some .scan)
            | some bv => ({ r := rv, g := gv, b := bv, a := 0xff }, none)
      else ({ r := 0, g := 0, b := 0, a := 0xff }, some .scan)
    | _ => ({ r := 0, g := 0, b := 0, a := 0xff }, some .scan)
  else if s.length = 9 then
    match s with
    | c0 :: c1 :: c2 :: c3 :: c4 :: c5 :: c6 :: c7 :: c8 :: [] =>
      if c0 = '#' then
        match hexPairVal c1 c2 with
        | none => ({ r := 0, g := 0, b := 0, a := 0xff }, some .scan)
        | some rv =>
          match hexPairVal c3 c4 with
          | none => ({ r := rv, g := 0, b := 0, a := 0xff }, some .scan)
          | some gv =>
            match hexPairVal c5 c6 with
            | none => ({ r := rv, g := gv, b := 0, a := 0xff }, some .scan)
            | some bv =>
              match hexPairVal c7 c8 with
              | none => ({ r := rv, g := gv, b := bv, a := 0xff }, some .scan)
              | some av => ({ r := rv, g := gv, b := bv, a := av }, none)
      else ({ r := 0, g := 0, b := 0, a := 0xff }, some .scan)
    | _ => ({ r := 0, g := 0, b := 0, a := 0xff }, some .scan)
  else stringToColorRgba s

/- ------------------------------------------------------------------ -/
/- Row lookup (getWidgetColorFor / getStandardColorFor / getColorFor)  -/
/- ------------------------------------------------------------------ -/

/-- The row test of the lookup loops: strings.Contains(row[0], "&#64;"+name)
|| strings.Contains(row[0], "@"+name). -/
def rowMatches (row name : Str) : Bool :=
  containsStr row (str "&#64;" ++ name) || containsStr row (str "@" ++ name)

/-- The first table row containing the requested color name, as scanned by
the lookup loops. -/
def firstMatchingRow (rows : List Str) (name : Str) : Option Str :=
  match rows with
  | [] => none
  | row :: rest => if rowMatches row name then some row else firstMatchingRow rest name

/-- Model of the getWidgetColorFor closure of generateColorScheme (the
getColorFor closure of the earlier generator's main has the same body): scan
the rows for the first one containing the name, extract the color cells and
parse c[0][1] for the light variant or c[1][1] for the dark variant; the
indexing panics when the match list is too short.  When no row matches, the
zero color and a nil error are returned. -/
def getWidgetColorFor (rows : List Str) (name : Str) (variant : Variant) :
    GoR (RGBA × Option ParseErr) :=
  match rows with
  | [] => .ok (rgbaZero, none)
  | row :: rest =>
    if rowMatches row name then
      match variant with
      | .light =>
        match (findColorCells row)[0]? with
        | none => .panic
        | some cell => .ok (stringToColor cell)
      | .dark =>
        match (findColorCells row)[1]? with
        | none => .panic
        | some cell => .ok (stringToColor cell)
    else getWidgetColorFor rest name variant

/-- Model of the getStandardColorFor closure of generateColorScheme: like the
light case of getWidgetColorFor, always parsing c[0][1]. -/
def getStandardColorFor (rows : List Str) (name : Str) : GoR (RGBA × Option ParseErr) :=
  match rows with
  | [] => .ok (rgbaZero, none)
  | row :: rest =>
    if rowMatches row name then
      match (findColorCells row)[0]? with
      | none => .panic
      | some cell => .ok (stringToColor cell)
    else getStandardColorFor rest name

/- ------------------------------------------------------------------ -/
/- The fixed name tables                                               -/
/- ------------------------------------------------------------------ -/

/-- The colorToGet map of adwaita_theme_generator.go, as the list of its
entries in source order (Go map iteration order is modelled by quantifying
over permutations of this list). -/
def colorToGet : List (Str × Str) :=
  [ (str "theme.ColorNameBackground", str "window_bg_color"),
    (str "theme.ColorNameForeground", str "window_fg_color"),
    (str "theme.ColorNameMenuBackground", str "popover_bg_color"),
    (str "theme.ColorNameSelection", str "headerbar_bg_color"),
    (str "theme.ColorNameOverlayBackground", str "view_bg_color"),
    (str "theme.ColorNamePrimary", str "accent_bg_color"),
    (str "theme.ColorNameInputBackground", str "view_bg_color"),
    (str "theme.ColorNameButton", str "headerbar_bg_color"),
    (str "theme.ColorNameShadow", str "shade_color"),
    (str "theme.ColorNameSuccess", str "success_bg_color"),
    (str "theme.ColorNameWarning", str "warning_bg_color"),
    (str "theme.ColorNameError", str "error_bg_color") ]

/-- The standardColorToGet map of adwaita_theme_generator.go. -/
def standardColorToGet : List (Str × Str) :=
  [ (str "theme.ColorRed", str "red_3,red_4"),
    (str "theme.ColorOrange", str "orange_3"),
    (str "theme.ColorYellow", str "yellow_3"),
    (str "theme.ColorGreen", str "green_4,green_5"),
    (str "theme.ColorBlue", str "blue_3"),
    (str "theme.ColorPurple", str "purple_3"),
    (str "theme.ColorBrown", str "brown_3"),
    (str "theme.ColorGray", str "dark_2"),
    (str "theme.ColorNameScrollBar", str "dark_5,light_1") ]

/-- The colorToGet map of the earlier generator adwaita_colors_generator.go. -/
def colorToGetV1 : List (Str × Str) :=
  [ (str "theme.ColorNameBackground", str "window_bg_color"),
    (str "theme.ColorNameForeground", str "window_fg_color"),
    (str "theme.ColorNameOverlayBackground", str "popover_bg_color"),
    (str "theme.ColorNamePrimary", str "accent_bg_color"),
    (str "theme.ColorNameInputBackground", str "view_bg_color"),
    (str "theme.ColorNameButton", str "headerbar_bg_color"),
    (str "theme.ColorNameShadow", str "shade_color"),
    (str "theme.ColorNameSuccess", str "success_color"),
    (str "theme.ColorNameWarning", str "warning_color"),
    (str "theme.ColorNameError", str "destructive_color") ]

/- ------------------------------------------------------------------ -/
/- Scheme construction (the two loops of generateColorScheme)          -/
/- ------------------------------------------------------------------ -/

/-- colorInfo of adwaita_theme_generator.go: the color value and the Adwaita
color name from the documentation without the "@". -/
structure colorInfo where
  Col : RGBA
  AdwName : Str
deriving DecidableEq

/-- Structured model of the error values built with fmt.Errorf by the
generators (the wrapped message strings are interchangeable with these
constructors: the callers only log them). -/
inductive GenError where
  | getPage
  | readBody
  | lightColorFail (name : Str) (e : ParseErr)
  | darkColorFail (name : Str) (e : ParseErr)
  | formatSource
  | writeFail (path : Str)
  | getIcons
  | tarExtract
deriving DecidableEq

/-- Worker for splitComma; each iteration consumes at least the comma, so
the fuel (the string length plus one) is never exhausted. -/
def splitCommaAux : Nat → Str → List Str
  | 0, s => [s]
  | fuel + 1, s =>
    match splitFirst (str ",") s with
    | none => [s]
    | some pr => pr.1 :: splitCommaAux fuel pr.2

/-- Model of strings.Split(s, ","). -/
def splitComma (s : Str) : List Str := splitCommaAux s.length s

/-- The light/dark Adwaita names of a standardColorToGet entry: when the
value splits into exactly two comma-separated parts the first is the light
name and the second the dark name, otherwise both are the whole value. -/
def stdNames (v : Str) : Str × Str :=
  match splitComma v with
  | [a, b] => (a, b)
  | _ => (v, v)

/-- The key whose alpha channel is overridden to 0x5b. -/
def scrollBarKey : Str := str "theme.ColorNameScrollBar"

/-- The first loop of generateColorScheme over colorToGet, taken in the map
iteration order given by the list argument: on the first lookup error the
loop returns the wrapped error; a panic aborts everything; otherwise the two
schemes collect one entry per key with AdwName set to the Adwaita name. -/
def buildWidgetSchemes (rows : List Str) :
    List (Str × Str) → GoR (Except GenError (List (Str × colorInfo) × List (Str × colorInfo)))
  | [] => .ok (.ok ([], []))
  | (colname, adw) :: rest =>
    match getWidgetColorFor rows adw .light with
    | .panic => .panic
    | .ok (_, some e) => .ok (.error (.lightColorFail adw e))
    | .ok (lcol, none) =>
      match getWidgetColorFor rows adw .dark with
      | .panic => .panic
      | .ok (_, some e) => .ok (.error (.darkColorFail adw e))
      | .ok (dcol, none) =>
        match buildWidgetSchemes rows rest with
        | .panic => .panic
        | .ok (.error e) => .ok (.error e)
        | .ok (.ok (ls, ds)) =>
          .ok (.ok ((colname, ⟨lcol, adw⟩) :: ls, (colname, ⟨dcol, adw⟩) :: ds))

/-- The second loop of generateColorScheme over standardColorToGet: both
variants use getStandardColorFor on the comma-split names, and the scrollbar
entry's alpha is forced to 0x5b in both schemes. -/
def buildStandardSchemes (rows : List Str) :
    List (Str × Str) → GoR (Except GenError (List (Str × colorInfo) × List (Str × colorInfo)))
  | [] => .ok (.ok ([], []))
  | (colname, v) :: rest =>
    match getStandardColorFor rows (stdNames v).1 with
    | .panic => .panic
    | .ok (_, some e) => .ok (.error (.lightColorFail (stdNames v).1 e))
    | .ok (lcol0, none) =>
      match getStandardColorFor rows (stdNames v).2 with
      | .panic => .panic
      | .ok (_, some e) => .ok (.error (.darkColorFail (stdNames v).2 e))
      | .ok (dcol0, none) =>
        match buildStandardSchemes rows rest with
        | .panic => .panic
        | .ok (.error e) => .ok (.error e)
        | .ok (.ok (ls, ds)) =>
          let lcol := if colname = scrollBarKey then { lcol0 with a := 0x5b } else lcol0
          let dcol := if colname = scrollBarKey then { dcol0 with a := 0x5b } else dcol0
          .ok (.ok ((colname, ⟨lcol, (stdNames v).1⟩) :: ls, (colname, ⟨dcol, (stdNames v).2⟩) :: ds))

/-- Both loops in sequence: the resulting light and dark schemes hold the
widget entries followed by the standard entries (as maps the order is
immaterial: all keys are distinct). -/
def buildSchemes (rows : List Str) (wt st : List (Str × Str)) :
    GoR (Except GenError (List (Str × colorInfo) × List (Str × colorInfo))) :=
  match buildWidgetSchemes rows wt with
  | .panic => .panic
  | .ok (.error e) => .ok (.error e)
  | .ok (.ok (lw, dw)) =>
    match buildStandardSchemes rows st with
    | .panic => .panic
    | .ok (.error e) => .ok (.error e)
    | .ok (.ok (ls, ds)) => .ok (.ok (lw ++ ls, dw ++ ds))

/- ------------------------------------------------------------------ -/
/- Sorted map iteration of text/template                               -/
/- ------------------------------------------------------------------ -/

/-- Byte-wise lexicographic string order used by text/template when ranging
over a map with string keys (the keys here are ASCII, so character order
coincides with byte order). -/
def strLeB : Str → Str → Bool
  | [], _ => true
  | _ :: _, [] => false
  | x :: xs, y :: ys => if x = y then strLeB xs ys else decide (x < y)

/-- Insertion into a key-sorted association list. -/
def insertByKey (p : Str × α) : List (Str × α) → List (Str × α)
  | [] => [p]
  | q :: qs => if strLeB p.1 q.1 then p :: q :: qs else q :: insertByKey p qs

/-- Sort an association list by key, the order in which text/template ranges
over a map. -/
def sortByKey : List (Str × α) → List (Str × α)
  | [] => []
  | p :: ps => insertByKey p (sortByKey ps)

/-- Sortedness of an association list by key. -/
def KeySorted {α : Type} (l : List (Str × α)) : Prop :=
  l.Pairwise (fun p q => strLeB p.1 q.1 = true)

/- ------------------------------------------------------------------ -/
/- Rendering of the color source template                              -/
/- ------------------------------------------------------------------ -/

/-- Hexadecimal digit character (lowercase, as printed by %x). -/
def hexChar (n : Nat) : Char :=
  if n < 10 then Char.ofNat ('0'.toNat + n) else Char.ofNat ('a'.toNat + (n - 10))

/-- Output of %02x for a byte value (the color fields are always below 256, so
two digits are always printed). -/
def hexByteLower (n : Nat) : Str := [hexChar (n / 16 % 16), hexChar (n % 16)]

/-- Output of %02X: the same digits in uppercase. -/
def hexByteUpper (n : Nat) : Str := (hexByteLower n).map Char.toUpper

/-- The printf of the dark block in colorSourceTpl:
color.NRGBA with all four components printed by %02x. -/
def nrgbaDark (c : RGBA) : Str :=
  str "color.NRGBA\x7bR: 0x" ++ hexByteLower c.r ++ str ", G: 0x" ++ hexByteLower c.g ++
    str ", B: 0x" ++ hexByteLower c.b ++ str ", A: 0x" ++ hexByteLower c.a ++ str "\x7d"

/-- The printf of the light block in colorSourceTpl: identical except that the
green component is printed by %02X (uppercase). -/
def nrgbaLight (c : RGBA) : Str :=
  str "color.NRGBA\x7bR: 0x" ++ hexByteLower c.r ++ str ", G: 0x" ++ hexByteUpper c.g ++
    str ", B: 0x" ++ hexByteLower c.b ++ str ", A: 0x" ++ hexByteLower c.a ++ str "\x7d"

/-- One rendered line of a scheme block of colorSourceTpl (the template's
leading-whitespace trim markers leave exactly one newline and four spaces per
entry). -/
def colorEntryLine (fmt : RGBA → Str) (p : Str × colorInfo) : Str :=
  str "\n    " ++ p.1 ++ str ": " ++ fmt p.2.Col ++ str ", // Adwaita color name @" ++ p.2.AdwName

/-- A whole scheme block: text/template ranges over a map with string keys in
increasing key order. -/
def colorBlock (fmt : RGBA → Str) (scheme : List (Str × colorInfo)) : Str :=
  ((sortByKey scheme).map (colorEntryLine fmt)).flatten

/-- The fixed text of colorSourceTpl before the dark block. -/
def colorSourceHeader : Str :=
  str "package theme\n\n// This file is generated by adwaita_theme_generator.go\n// Please do not edit manually, use:\n// go generate ./theme/...\n//\n// The colors are taken from: https://gnome.pages.gitlab.gnome.org/libadwaita/doc/1.0/named-colors.html\n\nimport (\n\t\"image/color\"\n\n\t\"fyne.io/fyne/v2\"\n\t\"fyne.io/fyne/v2/theme\"\n)\n\nvar adwaitaDarkScheme = map[fyne.ThemeColorName]color.Color\x7b"

/-- The fixed text of colorSourceTpl between the dark and light blocks. -/
def colorSourceMid : Str :=
  str "\n\x7d\n\nvar adwaitaLightScheme = map[fyne.ThemeColorName]color.Color\x7b"

/-- The full output of executing colorSourceTpl on the two schemes (the
template is a fixed valid template and executes without error on the scheme
maps). -/
def renderColorSource (light dark : List (Str × colorInfo)) : Str :=
  colorSourceHeader ++ colorBlock nrgbaDark dark ++ colorSourceMid ++
    colorBlock nrgbaLight light ++ str "\n\x7d"

/- ------------------------------------------------------------------ -/
/- Rendering of the earlier generator (sourceTpl in
   adwaita_colors_generator.go)                                        -/
/- ------------------------------------------------------------------ -/

/-- colorInfo of the earlier generator: the color is pre-formatted by
fmt.Sprintf into a Go literal string. -/
structure colorInfoV1 where
  Col : Str
  AdwName : Str
deriving DecidableEq

/-- The Sprintf call of the earlier main:
color.RGBA with all four components printed by %02x. -/
def rgbaV1Str (c : RGBA) : Str :=
  str "color.RGBA\x7b0x" ++ hexByteLower c.r ++ str ", 0x" ++ hexByteLower c.g ++
    str ", 0x" ++ hexByteLower c.b ++ str ", 0x" ++ hexByteLower c.a ++ str "\x7d"

/-- One rendered line of a scheme block of sourceTpl. -/
def colorEntryLineV1 (p : Str × colorInfoV1) : Str :=
  str "\n    " ++ p.1 ++ str ": " ++ p.2.Col ++ str ", // Adwaita color name @" ++ p.2.AdwName

/-- The fixed text of sourceTpl before the dark block. -/
def colorSourceHeaderV1 : Str :=
  str "package theme\n\n// This file is generated by adwaita_colors_generator.go\n// Please do not edit manually, use:\n// go generate ./theme/...\n//\n// The colors are taken from: https://gnome.pages.gitlab.gnome.org/libadwaita/doc/1.0/named-colors.html\n\nimport (\n\t\"image/color\"\n\n\t\"fyne.io/fyne/v2\"\n\t\"fyne.io/fyne/v2/theme\"\n)\n\nvar adwaitaDarkScheme = map[fyne.ThemeColorName]color.Color\x7b"

/-- The full output of executing sourceTpl on the two schemes of the earlier
generator. -/
def renderColorSourceV1 (light dark : List (Str × colorInfoV1)) : Str :=
  colorSourceHeaderV1 ++ ((sortByKey dark).map colorEntryLineV1).flatten ++ colorSourceMid ++
    ((sortByKey light).map colorEntryLineV1).flatten ++ str "\n\x7d"

/- ------------------------------------------------------------------ -/
/- Icons: the fixed tables                                             -/
/- ------------------------------------------------------------------ -/

/-- The iconsToGet map of adwaita_theme_generator.go, as the list of its
entries in source order. -/
def iconsToGet : List (Str × Str) :=
  [ (str "IconNameCancel", str "symbolic/ui/window-close-symbolic.svg"),
    (str "IconNameConfirm", str "symbolic/actions/object-select-symbolic.svg"),
    (str "IconNameDelete", str "symbolic/actions/edit-delete-symbolic.svg"),
    (str "IconNameSearch", str "symbolic/actions/edit-find-symbolic.svg"),
    (str "IconNameSearchReplace", str "symbolic/actions/edit-find-replace-symbolic.svg"),
    (str "IconNameMenu", str "symbolic/actions/open-menu-symbolic.svg"),
    (str "IconNameMenuExpand", str "symbolic/ui/pan-end-symbolic.svg"),
    (str "IconNameCheckButton", str "symbolic/ui/checkbox-symbolic.svg"),
    (str "IconNameCheckButtonChecked", str "symbolic/ui/checkbox-checked-symbolic.svg"),
    (str "IconNameRadioButton", str "symbolic/ui/radio-symbolic.svg"),
    (str "IconNameRadioButtonChecked", str "symbolic/ui/radio-checked-symbolic.svg"),
    (str "IconNameContentAdd", str "symbolic/actions/list-add-symbolic.svg"),
    (str "IconNameContentClear", str "symbolic/actions/edit-clear-symbolic.svg"),
    (str "IconNameContentRemove", str "symbolic/actions/list-remove-symbolic.svg"),
    (str "IconNameContentCut", str "symbolic/actions/edit-cut-symbolic.svg"),
    (str "IconNameContentCopy", str "symbolic/actions/edit-copy-symbolic.svg"),
    (str "IconNameContentPaste", str "symbolic/actions/edit-paste-symbolic.svg"),
    (str "IconNameContentRedo", str "symbolic/actions/edit-redo-symbolic.svg"),
    (str "IconNameContentUndo", str "symbolic/actions/edit-undo-symbolic.svg"),
    (str "IconNameColorAchromatic", str ""),
    (str "IconNameColorChromatic", str ""),
    (str "IconNameColorPalette", str "symbolic/categories/applications-graphics-symbolic.svg"),
    (str "IconNameDocument", str "symbolic/mimetypes/text-x-generic-symbolic.svg"),
    (str "IconNameDocumentCreate", str "symbolic/actions/document-new-symbolic.svg"),
    (str "IconNameDocumentPrint", str "symbolic/actions/document-print-symbolic.svg"),
    (str "IconNameDocumentSave", str "symbolic/actions/document-save-symbolic.svg"),
    (str "IconNameMoreHorizontal", str "symbolic/actions/view-more-horizontal-symbolic.svg"),
    (str "IconNameMoreVertical", str "symbolic/actions/view-more-symbolic.svg"),
    (str "IconNameInfo", str "symbolic/status/dialog-information-symbolic.svg"),
    (str "IconNameQuestion", str "symbolic/status/dialog-question-symbolic.svg"),
    (str "IconNameWarning", str "symbolic/status/dialog-warning-symbolic.svg"),
    (str "IconNameError", str "symbolic/status/dialog-error-symbolic.svg"),
    (str "IconNameMailAttachment", str "symbolic/status/mail-attachment-symbolic.svg"),
    (str "IconNameMailCompose", str "symbolic/actions/mail-message-new-symbolic.svg"),
    (str "IconNameMailForward", str "symbolic/actions/mail-forward-symbolic.svg"),
    (str "IconNameMailReply", str "symbolic/actions/mail-reply-sender-symbolic.svg"),
    (str "IconNameMailReplyAll", str "symbolic/actions/mail-reply-all-symbolic.svg"),
    (str "IconNameMailSend", str "symbolic/actions/mail-send-symbolic.svg"),
    (str "IconNameMediaMusic", str "symbolic/mimetypes/audio-x-generic-symbolic.svg"),
    (str "IconNameMediaPhoto", str "symbolic/mimetypes/image-x-generic-symbolic.svg"),
    (str "IconNameMediaVideo", str "symbolic/mimetypes/video-x-generic-symbolic.svg"),
    (str "IconNameMediaFastForward", str "symbolic/actions/media-seek-forward-symbolic.svg"),
    (str "IconNameMediaFastRewind", str "symbolic/actions/media-seek-backward-symbolic.svg"),
    (str "IconNameMediaPause", str "symbolic/actions/media-playback-pause-symbolic.svg"),
    (str "IconNameMediaPlay", str "symbolic/actions/media-playback-start-symbolic.svg"),
    (str "IconNameMediaRecord", str "symbolic/actions/media-record-symbolic.svg"),
    (str "IconNameMediaReplay", str "symbolic/actions/media-seek-backward-symbolic.svg"),
    (str "IconNameMediaSkipNext", str "symbolic/actions/media-skip-forward-symbolic.svg"),
    (str "IconNameMediaSkipPrevious", str "symbolic/actions/media-skip-backward-symbolic.svg"),
    (str "IconNameMediaStop", str "symbolic/actions/media-playback-stop-symbolic.svg"),
    (str "IconNameNavigateBack", str "symbolic/actions/go-previous-symbolic.svg"),
    (str "IconNameMoveDown", str "symbolic/actions/go-down-symbolic.svg"),
    (str "IconNameNavigateNext", str "symbolic/actions/go-next-symbolic.svg"),
    (str "IconNameMoveUp", str "symbolic/actions/go-up-symbolic.svg"),
    (str "IconNameArrowDropDown", str "symbolic/actions/go-down-symbolic.svg"),
    (str "IconNameArrowDropUp", str "symbolic/actions/go-up-symbolic.svg"),
    (str "IconNameFile", str "scalable/mimetypes/application-x-generic.svg"),
    (str "IconNameFileApplication", str "scalable/mimetypes/application-x-executable.svg"),
    (str "IconNameFileAudio", str "scalable/mimetypes/audio-x-generic.svg"),
    (str "IconNameFileImage", str "scalable/mimetypes/image-x-generic.svg"),
    (str "IconNameFileText", str "scalable/mimetypes/text-x-generic.svg"),
    (str "IconNameFileVideo", str "scalable/mimetypes/video-x-generic.svg"),
    (str "IconNameFolder", str "scalable/places/folder.svg"),
    (str "IconNameFolderNew", str "symbolic/actions/folder-new-symbolic.svg"),
    (str "IconNameFolderOpen", str "symbolic/status/folder-open-symbolic.svg"),
    (str "IconNameHelp", str "symbolic/actions/help-about-symbolic.svg"),
    (str "IconNameHistory", str ""),
    (str "IconNameHome", str "symbolic/places/user-home-symbolic.svg"),
    (str "IconNameSettings", str "symbolic/categories/applications-system-symbolic.svg"),
    (str "IconNameViewFullScreen", str "symbolic/actions/view-fullscreen-symbolic.svg"),
    (str "IconNameViewRefresh", str "symbolic/actions/view-refresh-symbolic.svg"),
    (str "IconNameViewRestore", str "symbolic/actions/view-restore-symbolic.svg"),
    (str "IconNameViewZoomFit", str "symbolic/actions/zoom-fit-best-symbolic.svg"),
    (str "IconNameViewZoomIn", str "symbolic/actions/zoom-in-symbolic.svg"),
    (str "IconNameViewZoomOut", str "symbolic/actions/zoom-out-symbolic.svg"),
    (str "IconNameVisibility", str "symbolic/actions/view-reveal-symbolic.svg"),
    (str "IconNameVisibilityOff", str "symbolic/actions/view-conceal-symbolic.svg"),
    (str "IconNameVolumeDown", str "symbolic/status/audio-volume-low-symbolic.svg"),
    (str "IconNameVolumeMute", str "symbolic/status/audio-volume-muted-symbolic.svg"),
    (str "IconNameVolumeUp", str "symbolic/status/audio-volume-high-symbolic.svg"),
    (str "IconNameDownload", str "symbolic/places/folder-download-symbolic.svg"),
    (str "IconNameComputer", str "symbolic/devices/computer-symbolic.svg"),
    (str "IconNameStorage", str "symbolic/devices/drive-harddisk-symbolic.svg"),
    (str "IconNameUpload", str "symbolic/actions/send-to-symbolic.svg"),
    (str "IconNameAccount", str "symbolic/status/avatar-default-symbolic.svg"),
    (str "IconNameLogin", str ""),
    (str "IconNameLogout", str "symbolic/actions/system-log-out-symbolic.svg"),
    (str "IconNameList", str "symbolic/actions/view-list-symbolic.svg"),
    (str "IconNameGrid", str "symbolic/actions/view-grid-symbolic.svg") ]

/-- The forcePNG map: the icons converted through the external tool before
bundling. -/
def forcePNG : List (Str × Bool) :=
  [ (str "IconNameFileAudio", true),
    (str "IconNameFileApplication", true) ]

/-- Membership test in the forcePNG map
(the Go code tests only presence of the key). -/
def forcePNGHas (name : Str) : Bool := (forcePNG.lookup name).isSome

/- ------------------------------------------------------------------ -/
/- Paths and the icon record                                           -/
/- ------------------------------------------------------------------ -/

/-- Model of filepath.Join for the clean arguments used here (no dot
segments, no duplicate separators, no trailing slash, so the Clean step of
filepath.Join is the identity). -/
def joinPath (a b : Str) : Str := a ++ ('/' :: b)

/-- Model of filepath.Base for the non-empty, slash-terminated-free paths
used here: everything after the last separator. -/
def pathBase (s : Str) : Str := (s.reverse.takeWhile (fun c => c ≠ '/')).reverse

/-- Suffix test of strings.TrimSuffix / strings.HasSuffix. -/
def endsWith (s suf : Str) : Bool := suf.isPrefixOf (s.drop (s.length - suf.length))

/-- Model of strings.TrimSuffix. -/
def trimSuffix (s suf : Str) : Str :=
  if endsWith s suf then s.take (s.length - suf.length) else s

/-- iconInfo of adwaita_theme_generator.go: the bundled name and the raw file
content. -/
structure iconInfo where
  StaticName : Str
  Content : Str
deriving DecidableEq

/- ------------------------------------------------------------------ -/
/- Rendering of the icon source template                               -/
/- ------------------------------------------------------------------ -/

/-- One character quoted by the %q verb (strconv.Quote): exact for the ASCII
content handled in this development; printable non-ASCII runes, which Go
keeps verbatim, do not occur in the inputs any theorem below evaluates. -/
def goQuoteChar (c : Char) : Str :=
  if c = '"' then ['\\', '"']
  else if c = '\\' then ['\\', '\\']
  else if c = '\x07' then ['\\', 'a']
  else if c = '\x08' then ['\\', 'b']
  else if c = '\x0c' then ['\\', 'f']
  else if c = '\n' then ['\\', 'n']
  else if c = '\r' then ['\\', 'r']
  else if c = '\t' then ['\\', 't']
  else if c = '\x0b' then ['\\', 'v']
  else if 0x20 ≤ c.toNat ∧ c.toNat < 0x7f then [c]
  else '\\' :: 'x' :: hexByteLower c.toNat

/-- Model of the printf %q of the icon template. -/
def goQuote (s : Str) : Str := '"' :: (s.map goQuoteChar).flatten ++ ['"']

/-- The fixed text of iconSourceTpl before the range loop (including the
newline preceding the range action, which has no trim marker). -/
def iconsHeader : Str :=
  str "package theme\n\n// This file is generated by adwaita_theme_generator.go\n// Please do not edit manually, use:\n// go generate ./theme/...\n//\n// This icons come from \"GNOME Project\"\n// Repository: https://gitlab.gnome.org/GNOME/adwaita-icon-theme\n// Licence: CC-BY-SA 3.0\n// See: https://gitlab.gnome.org/GNOME/adwaita-icon-theme/-/blob/master/COPYING_CCBYSA3\n\nimport (\n    \"fyne.io/fyne/v2\"\n    \"fyne.io/fyne/v2/theme\"\n)\n\nvar adwaitaIcons = map[fyne.ThemeIconName]fyne.Resource\x7b\n"

/-- One iteration of the icon template's range loop: the newlines around the
if action are literal text (the template has no trim markers), and the branch
is chosen by contains(StaticName, "symbolic"). -/
def iconEntry (p : Str × iconInfo) : Str :=
  str "\n" ++
    (if containsStr p.2.StaticName (str "symbolic") then
      str "\n    theme." ++ p.1 ++ str ": theme.NewThemedResource(&fyne.StaticResource\x7b\n        StaticName: \"" ++
        p.2.StaticName ++ str "\",\n        StaticContent: []byte(" ++ goQuote p.2.Content ++
        str "),\n    \x7d),\n"
    else
      str "\n    theme." ++ p.1 ++ str ": &fyne.StaticResource\x7b\n        StaticName: \"" ++
        p.2.StaticName ++ str "\",\n        StaticContent: []byte(" ++ goQuote p.2.Content ++
        str "),\n    \x7d,\n") ++
  str "\n"

/-- The full output of executing iconSourceTpl on the icon map (sorted key
order, as for every string-keyed map). -/
def renderIconsSource (icons : List (Str × iconInfo)) : Str :=
  iconsHeader ++ ((sortByKey icons).map iconEntry).flatten ++ str "\n\x7d\n"

/- ------------------------------------------------------------------ -/
/- Oracles for the external collaborators, and the event trace         -/
/- ------------------------------------------------------------------ -/

/-- Outcome of http.Get plus the ReadAll of the body for the color page. -/
inductive FetchOutcome where
  | getFail
  | readFail
  | body (page : Str)

/-- Outcome of http.Get plus the streaming tar extraction for the icon
archive; on success the extracted tree is visible through the fs oracle. -/
inductive IconsFetch where
  | getFail
  | tarFail
  | extracted

/-- The external collaborators of one run: the HTTP fetches, the extracted
filesystem as seen by fyne.LoadResourceFromPath (returning the raw bytes of
the file, or an error), the inkscape path found by exec.LookPath (empty when
not found), the deterministic go/format.Source function, the success of
os.Create / os.WriteFile per path, and the MkdirTemp directory. -/
structure Oracle where
  colorFetch : FetchOutcome
  iconsFetch : IconsFetch
  fs : Str → Option Str
  inkscape : Str
  fmtSource : Str → Option Str
  writeOk : Str → Bool
  tmpDir : Str

/-- Observable actions of a run. -/
inductive Event where
  | httpGet (url : Str)
  | createFile (path : Str)
  | writeFile (path : Str) (content : Str)
  | logError (icon : Str) (path : Str)
  | subprocessRun (exe : Str) (file : Str)
  | logFatal
deriving DecidableEq

/-- The URL constants of the generators. -/
def adwaitaColorPage : Str :=
  str "https://gnome.pages.gitlab.gnome.org/libadwaita/doc/1.0/named-colors.html"

/-- The icon archive URL of adwaita_theme_generator.go. -/
def adwaitaIconsPage : Str :=
  str "https://gitlab.gnome.org/GNOME/adwaita-icon-theme/-/archive/master/adwaita-icon-theme-master.tar?path=Adwaita"

/-- Output file of generateColorScheme. -/
def colorSchemeOutput : Str := str "adwaita_colors.go"

/-- Output file of generateIcons. -/
def iconsOutput : Str := str "adwaita_icons.go"

/-- Output file of the earlier generator (the output constant). -/
def outputV1 : Str := str "adwaita_colors.go"

/- ------------------------------------------------------------------ -/
/- generateColorScheme as a run producing an event trace               -/
/- ------------------------------------------------------------------ -/

/-- Model of generateColorScheme of adwaita_theme_generator.go, with the map
iteration orders of its two loops given by the list arguments wt and st (any
permutation of colorToGet and standardColorToGet).  The constant template
parses and executes without error; go/format.Source and os.WriteFile are
oracle calls.  Besides the result, the run yields the trace of its observable
actions. -/
def generateColorSchemeRun (wt st : List (Str × Str)) (o : Oracle) :
    List Event × GoR (Except GenError Unit) :=
  match o.colorFetch with
  | .getFail => ([.httpGet adwaitaColorPage], .ok (.error .getPage))
  | .readFail => ([.httpGet adwaitaColorPage], .ok (.error .readBody))
  | .body page =>
    match buildSchemes (findTableRows page) wt st with
    | .panic => ([.httpGet adwaitaColorPage], .panic)
    | .ok (.error e) => ([.httpGet adwaitaColorPage], .ok (.error e))
    | .ok (.ok (light, dark)) =>
      match o.fmtSource (renderColorSource light dark) with
      | none => ([.httpGet adwaitaColorPage], .ok (.error .formatSource))
      | some fmtd =>
        if o.writeOk colorSchemeOutput then
          ([.httpGet adwaitaColorPage, .writeFile colorSchemeOutput fmtd], .ok (.ok ()))
        else
          ([.httpGet adwaitaColorPage, .writeFile colorSchemeOutput fmtd],
            .ok (.error (.writeFail colorSchemeOutput)))

/- ------------------------------------------------------------------ -/
/- generateIcons as a run producing an event trace                     -/
/- ------------------------------------------------------------------ -/

/-- The icon path before any PNG conversion: filepath.Join(tmpDir,
"adwaita-icon-theme-master-Adwaita", "Adwaita", iconfile). -/
def iconBasePath (tmpDir file : Str) : Str :=
  joinPath (joinPath (joinPath tmpDir (str "adwaita-icon-theme-master-Adwaita")) (str "Adwaita")) file

/-- The path finally passed to fyne.LoadResourceFromPath: for forcePNG icons
the ".svg" suffix is replaced by ".png", for the rest the path is unchanged. -/
def iconFinalPath (tmpDir name file : Str) : Str :=
  if forcePNGHas name then trimSuffix (iconBasePath tmpDir file) (str ".svg") ++ str ".png"
  else iconBasePath tmpDir file

/-- One iteration of the icon loop of generateIcons: an empty icon file is
skipped outright; a forcePNG icon is first handed to svgToPng, which runs the
inkscape subprocess when exec.LookPath found one (the error return of
svgToPng and of the subprocess is discarded by the caller); then the resource
is loaded from the final path — on a load error the failure is logged via
log.Println and the icon is skipped with continue, otherwise the icon record
is built from the base filename and the raw content. -/
def processIcon (o : Oracle) (name file : Str) : List Event × Option (Str × iconInfo) :=
  if file = [] then ([], none)
  else
    let ev0 : List Event :=
      if forcePNGHas name then
        if o.inkscape = [] then []
        else [.subprocessRun o.inkscape (iconBasePath o.tmpDir file)]
      else []
    match o.fs (iconFinalPath o.tmpDir name file) with
    | none => (ev0 ++ [.logError name (iconFinalPath o.tmpDir name file)], none)
    | some bytes =>
      (ev0, some (name, ⟨pathBase (iconFinalPath o.tmpDir name file), bytes⟩))

/-- The whole icon loop over the iteration order given by the list. -/
def buildIcons (o : Oracle) : List (Str × Str) → List Event × List (Str × iconInfo)
  | [] => ([], [])
  | (name, file) :: rest =>
    let cur := processIcon o name file
    let next := buildIcons o rest
    (cur.1 ++ next.1,
      match cur.2 with
      | none => next.2
      | some entry => entry :: next.2)

/-- Model of generateIcons of adwaita_theme_generator.go over the map
iteration order it: fetch and tar-extract the archive (file operations into
the temporary directory are folded into the IconsFetch oracle), run the icon
loop, execute the constant template, then format and write. -/
def generateIconsRun (it : List (Str × Str)) (o : Oracle) :
    List Event × GoR (Except GenError Unit) :=
  match o.iconsFetch with
  | .getFail => ([.httpGet adwaitaIconsPage], .ok (.error .getIcons))
  | .tarFail => ([.httpGet adwaitaIconsPage], .ok (.error .tarExtract))
  | .extracted =>
    let built := buildIcons o it
    match o.fmtSource (renderIconsSource built.2) with
    | none => (.httpGet adwaitaIconsPage :: built.1, .ok (.error .formatSource))
    | some fmtd =>
      if o.writeOk iconsOutput then
        (.httpGet adwaitaIconsPage :: built.1 ++ [.writeFile iconsOutput fmtd], .ok (.ok ()))
      else
        (.httpGet adwaitaIconsPage :: built.1 ++ [.writeFile iconsOutput fmtd],
          .ok (.error (.writeFail iconsOutput)))

/-- Model of main of adwaita_theme_generator.go: generateColorScheme, then on
error log.Fatal; generateIcons, then on error log.Fatal.  A panic ends the
run where it happens. -/
def mainRun (wt st it : List (Str × Str)) (o : Oracle) : List Event :=
  let c := generateColorSchemeRun wt st o
  match c.2 with
  | .panic => c.1
  | .ok (.error _) => c.1 ++ [.logFatal]
  | .ok (.ok _) =>
    let i := generateIconsRun it o
    match i.2 with
    | .panic => c.1 ++ i.1
    | .ok (.error _) => c.1 ++ i.1 ++ [.logFatal]
    | .ok (.ok _) => c.1 ++ i.1

/- ------------------------------------------------------------------ -/
/- The earlier generator's main (adwaita_colors_generator.go)          -/
/- ------------------------------------------------------------------ -/

/-- The scheme-building loop of the earlier main over colorToGetV1: the
getColorFor closure has the same body as getWidgetColorFor, and the schemes
store the Sprintf-formatted color literal. -/
def buildSchemesV1 (rows : List Str) :
    List (Str × Str) → GoR (Except GenError (List (Str × colorInfoV1) × List (Str × colorInfoV1)))
  | [] => .ok (.ok ([], []))
  | (colname, adw) :: rest =>
    match getWidgetColorFor rows adw .light with
    | .panic => .panic
    | .ok (_, some e) => .ok (.error (.lightColorFail adw e))
    | .ok (lcol, none) =>
      match getWidgetColorFor rows adw .dark with
      | .panic => .panic
      | .ok (_, some e) => .ok (.error (.darkColorFail adw e))
      | .ok (dcol, none) =>
        match buildSchemesV1 rows rest with
        | .panic => .panic
        | .ok (.error e) => .ok (.error e)
        | .ok (.ok (ls, ds)) =>
          .ok (.ok ((colname, ⟨rgbaV1Str lcol, adw⟩) :: ls, (colname, ⟨rgbaV1Str dcol, adw⟩) :: ds))

/-- Model of main of the earlier adwaita_colors_generator.go, with its map
iteration order t: fetch the page, build both schemes (log.Fatal on a lookup
error), then os.Create the output file BEFORE parsing and executing the
template; only then format, and write on success (the error return of
out.Write is discarded).  A failing os.Create or a failing format.Source is a
log.Fatal, after the file has already been created. -/
def mainV1Run (t : List (Str × Str)) (o : Oracle) : List Event :=
  match o.colorFetch with
  | .getFail => [.httpGet adwaitaColorPage, .logFatal]
  | .readFail => [.httpGet adwaitaColorPage, .logFatal]
  | .body page =>
    match buildSchemesV1 (findTableRows page) t with
    | .panic => [.httpGet adwaitaColorPage]
    | .ok (.error _) => [.httpGet adwaitaColorPage, .logFatal]
    | .ok (.ok (light, dark)) =>
      if o.writeOk outputV1 then
        match o.fmtSource (renderColorSourceV1 light dark) with
        | none => [.httpGet adwaitaColorPage, .createFile outputV1, .logFatal]
        | some fmtd =>
          [.httpGet adwaitaColorPage, .createFile outputV1, .writeFile outputV1 fmtd]
      else [.httpGet adwaitaColorPage, .logFatal]

def widgetLightVal (rows : List Str) (v : Str) : RGBA :=
  match getWidgetColorFor rows v .light with
  | .ok (c, _) => c
  | .panic => rgbaZero

def widgetDarkVal (rows : List Str) (v : Str) : RGBA :=
  match getWidgetColorFor rows v .dark with
  | .ok (c, _) => c
  | .panic => rgbaZero

def widgetLightEntry (rows : List Str) (kv : Str × Str) : Str × colorInfo :=
  (kv.1, ⟨widgetLightVal rows kv.2, kv.2⟩)

def widgetDarkEntry (rows : List Str) (kv : Str × Str) : Str × colorInfo :=
  (kv.1, ⟨widgetDarkVal rows kv.2, kv.2⟩)

def stdVal (rows : List Str) (n : Str) : RGBA :=
  match getStandardColorFor rows n with
  | .ok (c, _) => c
  | .panic => rgbaZero

def stdAlpha (k : Str) (c : RGBA) : RGBA :=
  if k = scrollBarKey then { c with a := 0x5b } else c

def stdLightEntry (rows : List Str) (kv : Str × Str) : Str × colorInfo :=
  (kv.1, ⟨stdAlpha kv.1 (stdVal rows (stdNames kv.2).1), (stdNames kv.2).1⟩)

def stdDarkEntry (rows : List Str) (kv : Str × Str) : Str × colorInfo :=
  (kv.1, ⟨stdAlpha kv.1 (stdVal rows (stdNames kv.2).2), (stdNames kv.2).2⟩)

/-- The key list of every successfully built scheme, in table order. -/
def allSchemeKeys : List Str := colorToGet.map Prod.fst ++ standardColorToGet.map Prod.fst

def oW : Oracle :=
  { colorFetch := .body []
    iconsFetch := .extracted
    fs := fun _ => none
    inkscape := []
    fmtSource := fun s => some s
    writeOk := fun _ => true
    tmpDir := str "/tmp/adwaita" }

def emptyPageSchemes : List (Str × colorInfo) × List (Str × colorInfo) :=
  match buildSchemes [] colorToGet standardColorToGet with
  | .ok (.ok p) => p
  | _ => ([], [])

def wContent : Str := renderColorSource emptyPageSchemes.1 emptyPageSchemes.2

/-- Event classifiers used by the trace theorems. -/
def isWriteEvent : Event → Bool
  | .writeFile _ _ => true
  | _ => false

/-- Classifier for os.Create events. -/
def isCreateEvent : Event → Bool
  | .createFile _ => true
  | _ => false

/-- Classifier for log.Println error events of the icon loop. -/
def isLogErrorEvent : Event → Bool
  | .logError _ _ => true
  | _ => false

/-- Classifier for subprocess invocations. -/
def isSubprocessEvent : Event → Bool
  | .subprocessRun _ _ => true
  | _ => false

/-- Number of HTTP GET requests for a given URL in a trace. -/
def countGets (url : Str) (tr : List Event) : Nat :=
  tr.countP (fun e =>
    match e with
    | .httpGet u => decide (u = url)
    | _ => false)

/-- True when a stage returned a non-nil error (the log.Fatal case of main). -/
def stageErrored : GoR (Except GenError Unit) → Bool
  | .ok (.error _) => true
  | _ => false

/-- A run whose color page fetch fails. -/
def oFetchFail : Oracle :=
  { colorFetch := .getFail
    iconsFetch := .getFail
    fs := fun _ => none
    inkscape := []
    fmtSource := fun s => some s
    writeOk := fun _ => true
    tmpDir := str "/tmp/adwaita" }

/-- A run whose format.Source call fails (for the earlier generator). -/
def oFmtFail : Oracle :=
  { colorFetch := .body []
    iconsFetch := .extracted
    fs := fun _ => none
    inkscape := []
    fmtSource := fun _ => none
    writeOk := fun _ => true
    tmpDir := str "/tmp/adwaita" }

/-- A run with inkscape available and every icon file present. -/
def oIcons : Oracle :=
  { colorFetch := .body []
    iconsFetch := .extracted
    fs := fun _ => some (str "<svg/>")
    inkscape := str "/usr/bin/inkscape"
    fmtSource := fun s => some s
    writeOk := fun _ => true
    tmpDir := str "/tmp/adw" }

/-- The first matching table row used by the lookup loops, re-expressed: the
lookup result depends only on it. -/
def firstRowLookup (rows : List Str) (name : Str) (v : Variant) : GoR (RGBA × Option ParseErr) :=
  match firstMatchingRow rows name with
  | none => .ok (rgbaZero, none)
  | some r =>
    match v with
    | .light =>
      match (findColorCells r)[0]? with
      | none => .panic
      | some cell => .ok (stringToColor cell)
    | .dark =>
      match (findColorCells r)[1]? with
      | none => .panic
      | some cell => .ok (stringToColor cell)

/-- Row and scheme data for the single-row witness page. -/
def c3Row : Str :=
  str "<tr><td>@accent_bg_color</td><td><tt>#102030</tt></td><td><tt>#405060</tt></td></tr>"

/-- Schemes built from the single-row witness page. -/
def c3Schemes : List (Str × colorInfo) × List (Str × colorInfo) :=
  match buildSchemes [c3Row] colorToGet standardColorToGet with
  | .ok (.ok p) => p
  | _ => ([], [])

/-- A matching row with no color cells at all. -/
def c10Row : Str := str "<tr>@foo</tr>"

/-- Intermediate schemes of the earlier generator on the empty page. -/
def v1EmptySchemes : List (Str × colorInfoV1) × List (Str × colorInfoV1) :=
  match buildSchemesV1 [] colorToGetV1 with
  | .ok (.ok p) => p
  | _ => ([], [])

/-- The icons output content of a run on the all-loads-fail oracle (every
icon is skipped, so the rendered icon map is empty). -/
def iContent : Str := renderIconsSource (buildIcons oW iconsToGet).2

/-- A run whose color stage succeeds but whose icon-archive fetch fails. -/
def oIconsFail : Oracle :=
  { colorFetch := .body []
    iconsFetch := .getFail
    fs := fun _ => none
    inkscape := []
    fmtSource := fun s => some s
    writeOk := fun _ => true
    tmpDir := str "/tmp/adwaita" }

/- ==================================================================
   Theorems
   ================================================================== -/

theorem isPrefixOf_length : ∀ {pat l : Str}, pat.isPrefixOf l = true → pat.length ≤ l.length := by
  intro pat
  induction pat with
  | nil => intro l _; exact Nat.zero_le _
  | cons a as ih =>
    intro l h
    cases l with
    | nil => simp [List.isPrefixOf] at h
    | cons b bs =>
      simp only [List.isPrefixOf, Bool.and_eq_true] at h
      have := ih h.2
      simpa [List.length_cons] using Nat.succ_le_succ this

theorem splitFirst_length {pat : Str} : ∀ {s : Str} {pr : Str × Str},
    splitFirst pat s = some pr → pr.2.length + pat.length ≤ s.length := by
  intro s
  induction s with
  | nil => intro pr h; simp [splitFirst] at h
  | cons c cs ih =>
    intro pr h
    unfold splitFirst at h
    by_cases hp : pat.isPrefixOf (c :: cs) = true
    · rw [if_pos hp] at h
      have hlen := isPrefixOf_length hp
      cases h
      simp only [List.length_drop]
      omega
    · rw [if_neg hp] at h
      cases hsp : splitFirst pat cs with
      | none => rw [hsp] at h; cases h
      | some pr0 =>
        rw [hsp] at h
        cases h
        have := ih hsp
        simp only [List.length_cons]
        omega

theorem findTableRowsAux_irrel : ∀ {f1 : Nat} {f2 : Nat} {s : Str},
    s.length ≤ f1 → s.length ≤ f2 → findTableRowsAux f1 s = findTableRowsAux f2 s := by
  intro f1
  induction f1 with
  | zero =>
    intro f2 s h1 _
    have hs : s = [] := List.eq_nil_of_length_eq_zero (Nat.le_zero.mp h1)
    subst hs
    cases f2 with
    | zero => rfl
    | succ m => simp [findTableRowsAux, splitFirst]
  | succ n ih =>
    intro f2 s h1 h2
    cases f2 with
    | zero =>
      have hs : s = [] := List.eq_nil_of_length_eq_zero (Nat.le_zero.mp h2)
      subst hs
      simp [findTableRowsAux, splitFirst]
    | succ m =>
      simp only [findTableRowsAux]
      cases hsp : splitFirst (str "<tr>") s with
      | none => rfl
      | some pr =>
        dsimp only
        cases hsp2 : splitFirst (str "</tr>") pr.2 with
        | none => rfl
        | some pr2 =>
          have e1 := splitFirst_length hsp
          have e2 := splitFirst_length hsp2
          have l1 : (str "<tr>").length = 4 := rfl
          have l2 : (str "</tr>").length = 5 := rfl
          have hr : pr2.2.length ≤ n := by omega
          have hr2 : pr2.2.length ≤ m := by omega
          dsimp only
          rw [ih hr hr2]

theorem findColorCellsAux_irrel : ∀ {f1 : Nat} {f2 : Nat} {s : Str},
    s.length ≤ f1 → s.length ≤ f2 → findColorCellsAux f1 s = findColorCellsAux f2 s := by
  intro f1
  induction f1 with
  | zero =>
    intro f2 s h1 _
    have hs : s = [] := List.eq_nil_of_length_eq_zero (Nat.le_zero.mp h1)
    subst hs
    cases f2 with
    | zero => rfl
    | succ m => simp [findColorCellsAux, splitFirst]
  | succ n ih =>
    intro f2 s h1 h2
    cases f2 with
    | zero =>
      have hs : s = [] := List.eq_nil_of_length_eq_zero (Nat.le_zero.mp h2)
      subst hs
      simp [findColorCellsAux, splitFirst]
    | succ m =>
      simp only [findColorCellsAux]
      cases hsp : splitFirst (str "<tt>") s with
      | none => rfl
      | some pr =>
        dsimp only
        have e1 := splitFirst_length hsp
        have l1 : (str "<tt>").length = 4 := rfl
        by_cases hrg : (str "rgba").isPrefixOf pr.2 = true
        · rw [if_pos hrg, if_pos hrg]
          cases hsp2 : splitFirst (str "</tt>") (pr.2.drop 4) with
          | none => rfl
          | some pr2 =>
            have e2 := splitFirst_length hsp2
            have l2 : (str "</tt>").length = 5 := rfl
            simp only [List.length_drop] at e2
            have hr : pr2.2.length ≤ n := by omega
            have hr2 : pr2.2.length ≤ m := by omega
            dsimp only
            rw [ih hr hr2]
        · rw [if_neg hrg, if_neg hrg]
          by_cases hsh : (str "#").isPrefixOf pr.2 = true
          · rw [if_pos hsh, if_pos hsh]
            cases hsp2 : splitFirst (str "</tt>") (pr.2.drop 1) with
            | none => rfl
            | some pr2 =>
              have e2 := splitFirst_length hsp2
              have l2 : (str "</tt>").length = 5 := rfl
              simp only [List.length_drop] at e2
              have hr : pr2.2.length ≤ n := by omega
              have hr2 : pr2.2.length ≤ m := by omega
              dsimp only
              rw [ih hr hr2]
          · rw [if_neg hsh, if_neg hsh]
            have hr : pr.2.length ≤ n := by omega
            have hr2 : pr.2.length ≤ m := by omega
            exact ih hr hr2

theorem splitCommaAux_irrel : ∀ {f1 : Nat} {f2 : Nat} {s : Str},
    s.length ≤ f1 → s.length ≤ f2 → splitCommaAux f1 s = splitCommaAux f2 s := by
  intro f1
  induction f1 with
  | zero =>
    intro f2 s h1 _
    have hs : s = [] := List.eq_nil_of_length_eq_zero (Nat.le_zero.mp h1)
    subst hs
    cases f2 with
    | zero => rfl
    | succ m => simp [splitCommaAux, splitFirst]
  | succ n ih =>
    intro f2 s h1 h2
    cases f2 with
    | zero =>
      have hs : s = [] := List.eq_nil_of_length_eq_zero (Nat.le_zero.mp h2)
      subst hs
      simp [splitCommaAux, splitFirst]
    | succ m =>
      simp only [splitCommaAux]
      cases hsp : splitFirst (str ",") s with
      | none => rfl
      | some pr =>
        dsimp only
        have e1 := splitFirst_length hsp
        have l1 : (str ",").length = 1 := rfl
        have hr : pr.2.length ≤ n := by omega
        have hr2 : pr.2.length ≤ m := by omega
        rw [ih hr hr2]

theorem strLeB_total (a b : Str) : strLeB a b = true ∨ strLeB b a = true := by
  induction a generalizing b with
  | nil => left; rfl
  | cons x xs ih =>
    cases b with
    | nil => right; rfl
    | cons y ys =>
      by_cases hxy : x = y
      · subst hxy
        simp only [strLeB, if_pos rfl]
        exact ih ys
      · rcases lt_trichotomy x y with h | h | h
        · left; simp [strLeB, hxy, h]
        · exact absurd h hxy
        · right
          have hyx : y ≠ x := fun he => hxy he.symm
          simp [strLeB, hyx, h]

theorem strLeB_antisymm : ∀ {a b : Str}, strLeB a b = true → strLeB b a = true → a = b := by
  intro a
  induction a with
  | nil =>
    intro b _ hba
    cases b with
    | nil => rfl
    | cons y ys => simp [strLeB] at hba
  | cons x xs ih =>
    intro b hab hba
    cases b with
    | nil => simp [strLeB] at hab
    | cons y ys =>
      by_cases hxy : x = y
      · subst hxy
        simp only [strLeB, if_pos rfl] at hab hba
        exact congrArg (x :: ·) (ih hab hba)
      · simp only [strLeB, if_neg hxy, decide_eq_true_eq] at hab
        simp only [strLeB, if_neg (fun h : y = x => hxy h.symm), decide_eq_true_eq] at hba
        exact absurd (lt_trans hab hba) (lt_irrefl x)

theorem strLeB_trans : ∀ {a b c : Str}, strLeB a b = true → strLeB b c = true → strLeB a c = true := by
  intro a
  induction a with
  | nil => intro b c _ _; rfl
  | cons x xs ih =>
    intro b c hab hbc
    cases b with
    | nil => simp [strLeB] at hab
    | cons y ys =>
      cases c with
      | nil => simp [strLeB] at hbc
      | cons z zs =>
        by_cases hxy : x = y
        · subst hxy
          simp only [strLeB, if_pos rfl] at hab
          by_cases hyz : x = z
          · subst hyz
            simp only [strLeB, if_pos rfl] at hbc ⊢
            exact ih hab hbc
          · simp only [strLeB, if_neg hyz] at hbc ⊢
            exact hbc
        · simp only [strLeB, if_neg hxy, decide_eq_true_eq] at hab
          by_cases hyz : y = z
          · subst hyz
            simp [strLeB, hxy, hab]
          · simp only [strLeB, if_neg hyz, decide_eq_true_eq] at hbc
            have hxz : x < z := lt_trans hab hbc
            have hne : x ≠ z := ne_of_lt hxz
            simp [strLeB, hne, hxz]

theorem insertByKey_perm {α : Type} (p : Str × α) (l : List (Str × α)) :
    (insertByKey p l).Perm (p :: l) := by
  induction l with
  | nil => exact List.Perm.refl _
  | cons q qs ih =>
    by_cases h : strLeB p.1 q.1 = true
    · simp [insertByKey, h]
    · simp only [insertByKey, h, if_false]
      exact (List.Perm.cons q ih).trans (List.Perm.swap p q qs)

theorem sortByKey_perm {α : Type} (l : List (Str × α)) : (sortByKey l).Perm l := by
  induction l with
  | nil => exact List.Perm.refl _
  | cons p ps ih =>
    exact ((insertByKey_perm p (sortByKey ps)).trans (List.Perm.cons p ih))

theorem insertByKey_sorted {α : Type} (p : Str × α) (l : List (Str × α))
    (hl : KeySorted l) : KeySorted (insertByKey p l) := by
  induction l with
  | nil =>
    refine List.pairwise_cons.mpr ⟨?_, List.Pairwise.nil⟩
    intro q hq
    cases hq
  | cons q qs ih =>
    rcases List.pairwise_cons.mp hl with ⟨hq, hqs⟩
    by_cases h : strLeB p.1 q.1 = true
    · simp only [insertByKey, h, if_true]
      refine List.pairwise_cons.mpr ⟨?_, hl⟩
      intro r hr
      rcases List.mem_cons.mp hr with hr | hr
      · subst hr; exact h
      · exact strLeB_trans h (hq r hr)
    · simp only [insertByKey, h, if_false]
      refine List.pairwise_cons.mpr ⟨?_, ih hqs⟩
      intro r hr
      have hr2 : r ∈ p :: qs := (insertByKey_perm p qs).subset hr
      rcases List.mem_cons.mp hr2 with hr2 | hr2
      · rw [hr2]
        rcases strLeB_total p.1 q.1 with htot | htot
        · exact absurd htot h
        · exact htot
      · exact hq r hr2

theorem sortByKey_sorted {α : Type} (l : List (Str × α)) : KeySorted (sortByKey l) := by
  induction l with
  | nil => exact List.Pairwise.nil
  | cons p ps ih => exact insertByKey_sorted p (sortByKey ps) ih

theorem keySorted_nodup_perm_eq {α : Type} : ∀ {l1 l2 : List (Str × α)},
    l1.Perm l2 → KeySorted l1 → KeySorted l2 → (l1.map Prod.fst).Nodup → l1 = l2 := by
  intro l1
  induction l1 with
  | nil =>
    intro l2 hp _ _ _
    exact (hp.nil_eq).symm ▸ rfl
  | cons a t1 ih =>
    intro l2 hp hs1 hs2 hn
    cases l2 with
    | nil => exact absurd hp.symm.nil_eq (by simp)
    | cons b t2 =>
      rcases List.pairwise_cons.mp hs1 with ⟨ha1, ht1⟩
      rcases List.pairwise_cons.mp hs2 with ⟨hb2, ht2⟩
      rcases List.map_cons Prod.fst a t1 ▸ hn with hn'
      have hnk : a.1 ∉ t1.map Prod.fst := (List.nodup_cons.mp hn').1
      have hnt : (t1.map Prod.fst).Nodup := (List.nodup_cons.mp hn').2
      have hab : a = b := by
        have hamem : a ∈ b :: t2 := hp.subset (List.mem_cons_self a t1)
        rcases List.mem_cons.mp hamem with h1 | h1
        · exact h1
        · have hbmem : b ∈ a :: t1 := hp.symm.subset (List.mem_cons_self b t2)
          rcases List.mem_cons.mp hbmem with h2 | h2
          · exact h2.symm
          · have le1 : strLeB a.1 b.1 = true := ha1 b h2
            have le2 : strLeB b.1 a.1 = true := hb2 a h1
            have hkey : a.1 = b.1 := strLeB_antisymm le1 le2
            exact absurd (hkey ▸ List.mem_map_of_mem Prod.fst h2) hnk
      subst hab
      have htp : t1.Perm t2 := hp.cons_inv
      exact congrArg (a :: ·) (ih htp ht1 ht2 hnt)

theorem sortByKey_eq_of_perm {α : Type} {l1 l2 : List (Str × α)}
    (hp : l1.Perm l2) (hn : (l1.map Prod.fst).Nodup) : sortByKey l1 = sortByKey l2 := by
  have hperm : (sortByKey l1).Perm (sortByKey l2) :=
    (sortByKey_perm l1).trans (hp.trans (sortByKey_perm l2).symm)
  have hn1 : ((sortByKey l1).map Prod.fst).Nodup :=
    (((sortByKey_perm l1).map Prod.fst).nodup_iff).mpr hn
  exact keySorted_nodup_perm_eq hperm (sortByKey_sorted l1) (sortByKey_sorted l2) hn1

theorem lookup_eq_of_mem_nodup {α : Type} : ∀ {l : List (Str × α)} {k : Str} {x : α},
    (l.map Prod.fst).Nodup → (k, x) ∈ l → l.lookup k = some x := by
  intro l
  induction l with
  | nil => intro k x _ hm; cases hm
  | cons hd tl ih =>
    intro k x hn hm
    cases hd with
    | mk k0 v0 =>
      rw [List.map_cons] at hn
      obtain ⟨hnk, hnt⟩ := List.nodup_cons.mp hn
      rcases List.mem_cons.mp hm with h1 | h1
      · cases h1
        simp [List.lookup]
      · have hk : k ≠ k0 := by
          intro he
          have hkmem : (k, x).1 ∈ tl.map Prod.fst := List.mem_map_of_mem Prod.fst h1
          rw [show (k, x).1 = k0 from he] at hkmem
          exact hnk hkmem
        have hbeq : (k == k0) = false := beq_eq_false_iff_ne.mpr hk
        simp only [List.lookup, hbeq]
        exact ih hnt h1

theorem buildWidgetSchemes_ok : ∀ {t : List (Str × Str)} {rows : List Str}
    {l d : List (Str × colorInfo)},
    buildWidgetSchemes rows t = .ok (.ok (l, d)) →
    l = t.map (widgetLightEntry rows) ∧ d = t.map (widgetDarkEntry rows) ∧
    ∀ kv ∈ t, getWidgetColorFor rows kv.2 .light = .ok (widgetLightVal rows kv.2, none) ∧
              getWidgetColorFor rows kv.2 .dark = .ok (widgetDarkVal rows kv.2, none) := by
  intro t
  induction t with
  | nil =>
    intro rows l d h
    simp only [buildWidgetSchemes, GoR.ok.injEq, Except.ok.injEq, Prod.mk.injEq] at h
    exact ⟨h.1.symm, h.2.symm, by intro kv hkv; cases hkv⟩
  | cons kv rest ih =>
    intro rows l d h
    obtain ⟨colname, adw⟩ := kv
    unfold buildWidgetSchemes at h
    split at h
    · cases h
    · cases h
    · rename_i lc hL
      split at h
      · cases h
      · cases h
      · rename_i dc hD
        split at h
        · cases h
        · cases h
        · rename_i ls ds hR
          obtain ⟨hl, hd⟩ := by
            simpa only [GoR.ok.injEq, Except.ok.injEq, Prod.mk.injEq] using h
          obtain ⟨ihl, ihd, ihm⟩ := ih hR
          have hLv : widgetLightVal rows adw = lc := by
            simp [widgetLightVal, hL]
          have hDv : widgetDarkVal rows adw = dc := by
            simp [widgetDarkVal, hD]
          refine ⟨?_, ?_, ?_⟩
          · rw [← hl, List.map_cons, ← ihl, widgetLightEntry, hLv]
          · rw [← hd, List.map_cons, ← ihd, widgetDarkEntry, hDv]
          · intro p hp
            rcases List.mem_cons.mp hp with hp | hp
            · rw [hp]
              exact ⟨by rw [hLv]; exact hL, by rw [hDv]; exact hD⟩
            · exact ihm p hp

theorem buildStandardSchemes_ok : ∀ {t : List (Str × Str)} {rows : List Str}
    {l d : List (Str × colorInfo)},
    buildStandardSchemes rows t = .ok (.ok (l, d)) →
    l = t.map (stdLightEntry rows) ∧ d = t.map (stdDarkEntry rows) ∧
    ∀ kv ∈ t, getStandardColorFor rows (stdNames kv.2).1 = .ok (stdVal rows (stdNames kv.2).1, none) ∧
              getStandardColorFor rows (stdNames kv.2).2 = .ok (stdVal rows (stdNames kv.2).2, none) := by
  intro t
  induction t with
  | nil =>
    intro rows l d h
    simp only [buildStandardSchemes, GoR.ok.injEq, Except.ok.injEq, Prod.mk.injEq] at h
    exact ⟨h.1.symm, h.2.symm, by intro kv hkv; cases hkv⟩
  | cons kv rest ih =>
    intro rows l d h
    obtain ⟨colname, v⟩ := kv
    unfold buildStandardSchemes at h
    split at h
    · cases h
    · cases h
    · rename_i lc hL
      split at h
      · cases h
      · cases h
      · rename_i dc hD
        split at h
        · cases h
        · cases h
        · rename_i ls ds hR
          obtain ⟨hl, hd⟩ := by
            simpa only [GoR.ok.injEq, Except.ok.injEq, Prod.mk.injEq] using h
          obtain ⟨ihl, ihd, ihm⟩ := ih hR
          have hLv : stdVal rows (stdNames v).1 = lc := by
            simp [stdVal, hL]
          have hDv : stdVal rows (stdNames v).2 = dc := by
            simp [stdVal, hD]
          refine ⟨?_, ?_, ?_⟩
          · rw [← hl, List.map_cons, ← ihl, stdLightEntry, stdAlpha, hLv]
          · rw [← hd, List.map_cons, ← ihd, stdDarkEntry, stdAlpha, hDv]
          · intro p hp
            rcases List.mem_cons.mp hp with hp | hp
            · rw [hp]
              exact ⟨by rw [hLv]; exact hL, by rw [hDv]; exact hD⟩
            · exact ihm p hp

theorem buildSchemes_ok {rows : List Str} {wt st : List (Str × Str)}
    {l d : List (Str × colorInfo)}
    (h : buildSchemes rows wt st = .ok (.ok (l, d))) :
    ∃ lw dw ls ds, buildWidgetSchemes rows wt = .ok (.ok (lw, dw)) ∧
      buildStandardSchemes rows st = .ok (.ok (ls, ds)) ∧ l = lw ++ ls ∧ d = dw ++ ds := by
  unfold buildSchemes at h
  split at h
  · cases h
  · cases h
  · rename_i lw dw hW
    split at h
    · cases h
    · cases h
    · rename_i ls ds hS
      obtain ⟨hl, hd⟩ := by
        simpa only [GoR.ok.injEq, Except.ok.injEq, Prod.mk.injEq] using h
      exact ⟨lw, dw, ls, ds, hW, hS, hl.symm, hd.symm⟩

theorem schemes_map_decomp {rows : List Str} {wt st : List (Str × Str)}
    {l d : List (Str × colorInfo)}
    (h : buildSchemes rows wt st = .ok (.ok (l, d))) :
    l = wt.map (widgetLightEntry rows) ++ st.map (stdLightEntry rows) ∧
    d = wt.map (widgetDarkEntry rows) ++ st.map (stdDarkEntry rows) := by
  obtain ⟨lw, dw, ls, ds, hW, hS, hl, hd⟩ := buildSchemes_ok h
  obtain ⟨hwl, hwd, _⟩ := buildWidgetSchemes_ok hW
  obtain ⟨hsl, hsd, _⟩ := buildStandardSchemes_ok hS
  exact ⟨by rw [hl, hwl, hsl], by rw [hd, hwd, hsd]⟩

theorem allSchemeKeys_nodup : allSchemeKeys.Nodup := by decide

theorem scheme_keys {rows : List Str} {wt st : List (Str × Str)}
    {l d : List (Str × colorInfo)}
    (h : buildSchemes rows wt st = .ok (.ok (l, d))) :
    l.map Prod.fst = wt.map Prod.fst ++ st.map Prod.fst ∧
    d.map Prod.fst = wt.map Prod.fst ++ st.map Prod.fst := by
  obtain ⟨hl, hd⟩ := schemes_map_decomp h
  have e1 : (Prod.fst ∘ widgetLightEntry rows) = (Prod.fst : Str × Str → Str) := funext fun kv => rfl
  have e2 : (Prod.fst ∘ stdLightEntry rows) = (Prod.fst : Str × Str → Str) := funext fun kv => rfl
  have e3 : (Prod.fst ∘ widgetDarkEntry rows) = (Prod.fst : Str × Str → Str) := funext fun kv => rfl
  have e4 : (Prod.fst ∘ stdDarkEntry rows) = (Prod.fst : Str × Str → Str) := funext fun kv => rfl
  constructor
  · rw [hl, List.map_append, List.map_map, List.map_map, e1, e2]
  · rw [hd, List.map_append, List.map_map, List.map_map, e3, e4]

theorem scheme_keys_perm {rows : List Str} {wt st : List (Str × Str)}
    {l d : List (Str × colorInfo)}
    (hw : wt.Perm colorToGet) (hs : st.Perm standardColorToGet)
    (h : buildSchemes rows wt st = .ok (.ok (l, d))) :
    (l.map Prod.fst).Perm allSchemeKeys ∧ (d.map Prod.fst).Perm allSchemeKeys := by
  obtain ⟨hl, hd⟩ := scheme_keys h
  have hp : (wt.map Prod.fst ++ st.map Prod.fst).Perm allSchemeKeys :=
    List.Perm.append (hw.map Prod.fst) (hs.map Prod.fst)
  exact ⟨hl ▸ hp, hd ▸ hp⟩

theorem renderColorSource_order_invariant {rows : List Str}
    {wt1 wt2 st1 st2 : List (Str × Str)} {l1 d1 l2 d2 : List (Str × colorInfo)}
    (hw1 : wt1.Perm colorToGet) (hw2 : wt2.Perm colorToGet)
    (hs1 : st1.Perm standardColorToGet) (hs2 : st2.Perm standardColorToGet)
    (h1 : buildSchemes rows wt1 st1 = .ok (.ok (l1, d1)))
    (h2 : buildSchemes rows wt2 st2 = .ok (.ok (l2, d2))) :
    renderColorSource l1 d1 = renderColorSource l2 d2 := by
  obtain ⟨hl1, hd1⟩ := schemes_map_decomp h1
  obtain ⟨hl2, hd2⟩ := schemes_map_decomp h2
  have hwp : wt1.Perm wt2 := hw1.trans hw2.symm
  have hsp : st1.Perm st2 := hs1.trans hs2.symm
  have hlp : l1.Perm l2 := by
    rw [hl1, hl2]
    exact List.Perm.append (hwp.map _) (hsp.map _)
  have hdp : d1.Perm d2 := by
    rw [hd1, hd2]
    exact List.Perm.append (hwp.map _) (hsp.map _)
  have hln : (l1.map Prod.fst).Nodup :=
    ((scheme_keys_perm hw1 hs1 h1).1.nodup_iff).mpr allSchemeKeys_nodup
  have hdn : (d1.map Prod.fst).Nodup :=
    ((scheme_keys_perm hw1 hs1 h1).2.nodup_iff).mpr allSchemeKeys_nodup
  have hsl : sortByKey l1 = sortByKey l2 := sortByKey_eq_of_perm hlp hln
  have hsd : sortByKey d1 = sortByKey d2 := sortByKey_eq_of_perm hdp hdn
  unfold renderColorSource colorBlock
  rw [hsl, hsd]

set_option maxRecDepth 1000000 in
theorem wTraceReversed :
    (generateColorSchemeRun (colorToGet.reverse) (standardColorToGet.reverse) oW).1 =
    [Event.httpGet adwaitaColorPage, Event.writeFile colorSchemeOutput wContent] := rfl


theorem getWidget_no_match : ∀ {rows : List Str} {name : Str},
    (∀ r ∈ rows, rowMatches r name = false) → ∀ v,
    getWidgetColorFor rows name v = .ok (rgbaZero, none) := by
  intro rows
  induction rows with
  | nil => intro name _ v; rfl
  | cons row rest ih =>
    intro name h v
    have hrow : rowMatches row name = false := h row (List.mem_cons_self row rest)
    simp only [getWidgetColorFor, hrow, Bool.false_eq_true, if_false]
    exact ih (fun r hr => h r (List.mem_cons_of_mem row hr)) v

theorem getStandard_no_match : ∀ {rows : List Str} {name : Str},
    (∀ r ∈ rows, rowMatches r name = false) →
    getStandardColorFor rows name = .ok (rgbaZero, none) := by
  intro rows
  induction rows with
  | nil => intro name _; rfl
  | cons row rest ih =>
    intro name h
    have hrow : rowMatches row name = false := h row (List.mem_cons_self row rest)
    simp only [getStandardColorFor, hrow, Bool.false_eq_true, if_false]
    exact ih (fun r hr => h r (List.mem_cons_of_mem row hr))

theorem getWidget_eq_firstRow (rows : List Str) (name : Str) (v : Variant) :
    getWidgetColorFor rows name v = firstRowLookup rows name v := by
  induction rows with
  | nil => cases v <;> rfl
  | cons row rest ih =>
    by_cases h : rowMatches row name = true
    · simp only [getWidgetColorFor, h, if_true, firstRowLookup, firstMatchingRow]
    · simp only [getWidgetColorFor, h, Bool.false_eq_true, if_false, firstRowLookup,
        firstMatchingRow] at ih ⊢
      exact ih

theorem getStandard_eq_firstRow (rows : List Str) (name : Str) :
    getStandardColorFor rows name = firstRowLookup rows name .light := by
  induction rows with
  | nil => rfl
  | cons row rest ih =>
    by_cases h : rowMatches row name = true
    · simp only [getStandardColorFor, h, if_true, firstRowLookup, firstMatchingRow]
    · simp only [getStandardColorFor, h, Bool.false_eq_true, if_false, firstRowLookup,
        firstMatchingRow] at ih ⊢
      exact ih

theorem scheme_lookup_widget {rows : List Str} {wt st : List (Str × Str)}
    {l d : List (Str × colorInfo)} {k v : Str}
    (hw : wt.Perm colorToGet) (hs : st.Perm standardColorToGet)
    (hok : buildSchemes rows wt st = .ok (.ok (l, d)))
    (hmem : (k, v) ∈ colorToGet) :
    l.lookup k = some ⟨widgetLightVal rows v, v⟩ ∧
    d.lookup k = some ⟨widgetDarkVal rows v, v⟩ := by
  obtain ⟨hl, hd⟩ := schemes_map_decomp hok
  have hln : (l.map Prod.fst).Nodup :=
    ((scheme_keys_perm hw hs hok).1.nodup_iff).mpr allSchemeKeys_nodup
  have hdn : (d.map Prod.fst).Nodup :=
    ((scheme_keys_perm hw hs hok).2.nodup_iff).mpr allSchemeKeys_nodup
  have hmem2 : (k, v) ∈ wt := (hw.mem_iff).mpr hmem
  constructor
  · apply lookup_eq_of_mem_nodup hln
    rw [hl]
    exact List.mem_append_left _ (List.mem_map_of_mem (widgetLightEntry rows) hmem2)
  · apply lookup_eq_of_mem_nodup hdn
    rw [hd]
    exact List.mem_append_left _ (List.mem_map_of_mem (widgetDarkEntry rows) hmem2)

theorem scheme_lookup_std {rows : List Str} {wt st : List (Str × Str)}
    {l d : List (Str × colorInfo)} {k v : Str}
    (hw : wt.Perm colorToGet) (hs : st.Perm standardColorToGet)
    (hok : buildSchemes rows wt st = .ok (.ok (l, d)))
    (hmem : (k, v) ∈ standardColorToGet) :
    l.lookup k = some ⟨stdAlpha k (stdVal rows (stdNames v).1), (stdNames v).1⟩ ∧
    d.lookup k = some ⟨stdAlpha k (stdVal rows (stdNames v).2), (stdNames v).2⟩ := by
  obtain ⟨hl, hd⟩ := schemes_map_decomp hok
  have hln : (l.map Prod.fst).Nodup :=
    ((scheme_keys_perm hw hs hok).1.nodup_iff).mpr allSchemeKeys_nodup
  have hdn : (d.map Prod.fst).Nodup :=
    ((scheme_keys_perm hw hs hok).2.nodup_iff).mpr allSchemeKeys_nodup
  have hmem2 : (k, v) ∈ st := (hs.mem_iff).mpr hmem
  constructor
  · apply lookup_eq_of_mem_nodup hln
    rw [hl]
    exact List.mem_append_right _ (List.mem_map_of_mem (stdLightEntry rows) hmem2)
  · apply lookup_eq_of_mem_nodup hdn
    rw [hd]
    exact List.mem_append_right _ (List.mem_map_of_mem (stdDarkEntry rows) hmem2)

/-- Claim C9: a color name that occurs in no table row makes the lookup
return the zero color (R=G=B=A=0) with a nil error, and the generated
schemes silently carry that fully transparent black under the mapped Fyne
name. -/
theorem C9_missingColorSilentZero (rows : List Str) (name k : Str) (v : Variant)
    (l d : List (Str × colorInfo))
    (hnone : ∀ r ∈ rows, rowMatches r name = false)
    (hmem : (k, name) ∈ colorToGet)
    (hok : buildSchemes rows colorToGet standardColorToGet = .ok (.ok (l, d))) :
    getWidgetColorFor rows name v = .ok (rgbaZero, none) ∧
    getStandardColorFor rows name = .ok (rgbaZero, none) ∧
    l.lookup k = some ⟨rgbaZero, name⟩ ∧ d.lookup k = some ⟨rgbaZero, name⟩ := by
  have h1 := getWidget_no_match hnone
  have h2 := getStandard_no_match hnone
  have hzl : widgetLightVal rows name = rgbaZero := by simp [widgetLightVal, h1 .light]
  have hzd : widgetDarkVal rows name = rgbaZero := by simp [widgetDarkVal, h1 .dark]
  obtain ⟨hlk, hdk⟩ :=
    scheme_lookup_widget (List.Perm.refl _) (List.Perm.refl _) hok hmem
  exact ⟨h1 v, h2, by rw [hlk, hzl], by rw [hdk, hzd]⟩

theorem C9_witness :
    getWidgetColorFor [] (str "window_bg_color") .light = .ok (rgbaZero, none) ∧
    getStandardColorFor [] (str "window_bg_color") = .ok (rgbaZero, none) ∧
    emptyPageSchemes.1.lookup (str "theme.ColorNameBackground") = some ⟨rgbaZero, str "window_bg_color"⟩ ∧
    emptyPageSchemes.2.lookup (str "theme.ColorNameBackground") = some ⟨rgbaZero, str "window_bg_color"⟩ :=
  C9_missingColorSilentZero [] (str "window_bg_color") (str "theme.ColorNameBackground") .light
    emptyPageSchemes.1 emptyPageSchemes.2
    (by intro r hr; cases hr) (by decide) rfl

/-- Claim C5: on a successful run the schemes contain exactly one entry per
key of colorToGet and standardColorToGet and nothing else, with AdwName the
mapped Adwaita color name (comma-split for the standard table: first name in
the light scheme, second in the dark scheme). -/
theorem C5_nameTableMapping (rows : List Str) (wt st : List (Str × Str))
    (l d : List (Str × colorInfo))
    (hw : wt.Perm colorToGet) (hs : st.Perm standardColorToGet)
    (hok : buildSchemes rows wt st = .ok (.ok (l, d))) :
    (l.map Prod.fst).Perm allSchemeKeys ∧ (d.map Prod.fst).Perm allSchemeKeys ∧
    (∀ k v, (k, v) ∈ colorToGet →
      l.lookup k = some ⟨widgetLightVal rows v, v⟩ ∧
      d.lookup k = some ⟨widgetDarkVal rows v, v⟩) ∧
    (∀ k v, (k, v) ∈ standardColorToGet →
      l.lookup k = some ⟨stdAlpha k (stdVal rows (stdNames v).1), (stdNames v).1⟩ ∧
      d.lookup k = some ⟨stdAlpha k (stdVal rows (stdNames v).2), (stdNames v).2⟩) := by
  refine ⟨(scheme_keys_perm hw hs hok).1, (scheme_keys_perm hw hs hok).2, ?_, ?_⟩
  · intro k v hmem
    exact scheme_lookup_widget hw hs hok hmem
  · intro k v hmem
    exact scheme_lookup_std hw hs hok hmem

theorem C5_witness :
    (emptyPageSchemes.1.map Prod.fst).Perm allSchemeKeys ∧
    emptyPageSchemes.1.lookup (str "theme.ColorNamePrimary") =
      some ⟨widgetLightVal [] (str "accent_bg_color"), str "accent_bg_color"⟩ ∧
    emptyPageSchemes.2.lookup (str "theme.ColorNameScrollBar") =
      some ⟨stdAlpha (str "theme.ColorNameScrollBar") (stdVal [] (str "light_1")), str "light_1"⟩ := by
  have h := C5_nameTableMapping [] colorToGet standardColorToGet
    emptyPageSchemes.1 emptyPageSchemes.2 (List.Perm.refl _) (List.Perm.refl _) rfl
  refine ⟨h.1, (h.2.2.1 _ _ (by decide)).1, ?_⟩
  have h2 := (h.2.2.2 (str "theme.ColorNameScrollBar") (str "dark_5,light_1") (by decide)).2
  have hsplit : stdNames (str "dark_5,light_1") = (str "dark_5", str "light_1") := rfl
  rw [hsplit] at h2
  exact h2

/-- Claim C3: for a color name of colorToGet that occurs in some table row,
the generator takes the first matching row, parses its first color cell as
the light value and its second as the dark value, and stores both under the
same Fyne theme color name in the light and dark schemes. -/
theorem C3_rowColorExtraction (rows : List Str) (k v r : Str)
    (l d : List (Str × colorInfo))
    (hmem : (k, v) ∈ colorToGet)
    (hrow : firstMatchingRow rows v = some r)
    (hok : buildSchemes rows colorToGet standardColorToGet = .ok (.ok (l, d))) :
    2 ≤ (findColorCells r).length ∧
    stringToColor ((findColorCells r).getD 0 []) = (widgetLightVal rows v, none) ∧
    stringToColor ((findColorCells r).getD 1 []) = (widgetDarkVal rows v, none) ∧
    l.lookup k = some ⟨widgetLightVal rows v, v⟩ ∧
    d.lookup k = some ⟨widgetDarkVal rows v, v⟩ := by
  obtain ⟨lw, dw, ls, ds, hW, _, _, _⟩ := buildSchemes_ok hok
  obtain ⟨_, _, ihm⟩ := buildWidgetSchemes_ok hW
  obtain ⟨hL, hD⟩ := ihm (k, v) hmem
  rw [getWidget_eq_firstRow] at hL hD
  unfold firstRowLookup at hL hD
  rw [hrow] at hL hD
  dsimp only at hL hD
  cases hc0 : (findColorCells r)[0]? with
  | none => rw [hc0] at hL; cases hL
  | some c0 =>
    rw [hc0] at hL
    cases hc1 : (findColorCells r)[1]? with
    | none => rw [hc1] at hD; cases hD
    | some c1 =>
      rw [hc1] at hD
      have hlen : 2 ≤ (findColorCells r).length := by
        by_contra hcon
        have : (findColorCells r)[1]? = none := List.getElem?_eq_none (by omega)
        rw [this] at hc1
        cases hc1
      have hg0 : (findColorCells r).getD 0 [] = c0 := by
        rw [List.getD_eq_getElem?_getD, hc0]
        rfl
      have hg1 : (findColorCells r).getD 1 [] = c1 := by
        rw [List.getD_eq_getElem?_getD, hc1]
        rfl
      obtain ⟨hlk, hdk⟩ :=
        scheme_lookup_widget (List.Perm.refl _) (List.Perm.refl _) hok hmem
      dsimp only at hL hD
      refine ⟨hlen, ?_, ?_, hlk, hdk⟩
      · rw [hg0]
        exact GoR.ok.inj hL
      · rw [hg1]
        exact GoR.ok.inj hD

theorem C3_witness :
    2 ≤ (findColorCells c3Row).length ∧
    stringToColor ((findColorCells c3Row).getD 0 []) =
      (widgetLightVal [c3Row] (str "accent_bg_color"), none) ∧
    stringToColor ((findColorCells c3Row).getD 1 []) =
      (widgetDarkVal [c3Row] (str "accent_bg_color"), none) ∧
    c3Schemes.1.lookup (str "theme.ColorNamePrimary") =
      some ⟨widgetLightVal [c3Row] (str "accent_bg_color"), str "accent_bg_color"⟩ ∧
    c3Schemes.2.lookup (str "theme.ColorNamePrimary") =
      some ⟨widgetDarkVal [c3Row] (str "accent_bg_color"), str "accent_bg_color"⟩ :=
  C3_rowColorExtraction [c3Row] (str "theme.ColorNamePrimary") (str "accent_bg_color") c3Row
    c3Schemes.1 c3Schemes.2 (by decide) (by decide) rfl

/-- Claim C10: when a row containing the requested name has fewer than two
matching color cells (fewer than one for a standard lookup), the indexing of
the match list panics with an index-out-of-range error instead of returning
an error value. -/
theorem C10_shortRowPanics (rows : List Str) (name r : Str)
    (hrow : firstMatchingRow rows name = some r) :
    ((findColorCells r).length < 2 → getWidgetColorFor rows name .dark = .panic) ∧
    ((findColorCells r).length < 1 →
      getWidgetColorFor rows name .light = .panic ∧
      getStandardColorFor rows name = .panic) := by
  constructor
  · intro hlen
    rw [getWidget_eq_firstRow]
    unfold firstRowLookup
    rw [hrow]
    dsimp only
    have h1 : (findColorCells r)[1]? = none := List.getElem?_eq_none (by omega)
    rw [h1]
  · intro hlen
    have h0 : (findColorCells r)[0]? = none := List.getElem?_eq_none (by omega)
    constructor
    · rw [getWidget_eq_firstRow]
      unfold firstRowLookup
      rw [hrow]
      dsimp only
      rw [h0]
    · rw [getStandard_eq_firstRow]
      unfold firstRowLookup
      rw [hrow]
      dsimp only
      rw [h0]

theorem C10_witness :
    getWidgetColorFor [c10Row] (str "foo") .dark = .panic ∧
    getWidgetColorFor [c10Row] (str "foo") .light = .panic ∧
    getStandardColorFor [c10Row] (str "foo") = .panic :=
  ⟨(C10_shortRowPanics [c10Row] (str "foo") c10Row (by decide)).1 (by decide),
   ((C10_shortRowPanics [c10Row] (str "foo") c10Row (by decide)).2 (by decide)).1,
   ((C10_shortRowPanics [c10Row] (str "foo") c10Row (by decide)).2 (by decide)).2⟩

theorem processIcon_events (o : Oracle) (name file : Str) :
    ∀ e ∈ (processIcon o name file).1,
      isLogErrorEvent e = true ∨ isSubprocessEvent e = true := by
  intro e he
  by_cases hf : file = [] <;>
    by_cases hp : forcePNGHas name = true <;>
      by_cases hi : o.inkscape = [] <;>
        cases hfs : o.fs (iconFinalPath o.tmpDir name file) <;>
          simp [processIcon, hf, hp, hi, hfs] at he <;>
          first
          | (subst he; simp [isLogErrorEvent, isSubprocessEvent])
          | (rcases he with he | he <;> subst he <;>
              simp [isSubprocessEvent, isLogErrorEvent])

theorem buildIcons_events (o : Oracle) (it : List (Str × Str)) :
    ∀ e ∈ (buildIcons o it).1, isLogErrorEvent e = true ∨ isSubprocessEvent e = true := by
  induction it with
  | nil => intro e he; cases he
  | cons kv rest ih =>
    intro e he
    obtain ⟨name, file⟩ := kv
    simp only [buildIcons] at he
    rcases List.mem_append.mp he with h | h
    · exact processIcon_events o name file e h
    · exact ih e h

theorem processIcon_key (o : Oracle) (n f : Str) (p : Str × iconInfo)
    (h : (processIcon o n f).2 = some p) : p.1 = n := by
  by_cases hf : f = [] <;>
    cases hfs : o.fs (iconFinalPath o.tmpDir n f) <;>
      simp [processIcon, hf, hfs] at h <;>
      rw [← h]

theorem buildIcons_snd_filterMap (o : Oracle) : ∀ it : List (Str × Str),
    (buildIcons o it).2 = it.filterMap (fun kv => (processIcon o kv.1 kv.2).2) := by
  intro it
  induction it with
  | nil => rfl
  | cons kv rest ih =>
    obtain ⟨n, f⟩ := kv
    simp only [buildIcons, List.filterMap_cons]
    cases hp : (processIcon o n f).2 with
    | none => exact ih
    | some p =>
      dsimp only
      rw [ih]

theorem buildIcons_keys_subset (o : Oracle) : ∀ (it : List (Str × Str)) (k : Str),
    k ∈ ((buildIcons o it).2).map Prod.fst → k ∈ it.map Prod.fst := by
  intro it
  induction it with
  | nil => intro k hk; cases hk
  | cons kv rest ih =>
    intro k hk
    obtain ⟨n, f⟩ := kv
    simp only [buildIcons] at hk
    cases hp : (processIcon o n f).2 with
    | none =>
      rw [hp] at hk
      dsimp only at hk
      exact List.mem_cons_of_mem _ (ih k hk)
    | some p =>
      rw [hp] at hk
      dsimp only at hk
      rw [List.map_cons] at hk
      rcases List.mem_cons.mp hk with h | h
      · rw [h, processIcon_key o n f p hp]
        exact List.mem_cons_self _ _
      · exact List.mem_cons_of_mem _ (ih k h)

theorem buildIcons_keys_nodup (o : Oracle) : ∀ (it : List (Str × Str)),
    (it.map Prod.fst).Nodup → (((buildIcons o it).2).map Prod.fst).Nodup := by
  intro it
  induction it with
  | nil => intro _; exact List.Pairwise.nil
  | cons kv rest ih =>
    intro hn
    obtain ⟨n, f⟩ := kv
    rw [List.map_cons] at hn
    obtain ⟨hn1, hn2⟩ := List.nodup_cons.mp hn
    simp only [buildIcons]
    cases hp : (processIcon o n f).2 with
    | none => exact ih hn2
    | some p =>
      dsimp only
      rw [List.map_cons]
      refine List.nodup_cons.mpr ⟨?_, ih hn2⟩
      intro hmem
      have hk : p.1 = n := processIcon_key o n f p hp
      rw [hk] at hmem
      exact hn1 (buildIcons_keys_subset o rest _ hmem)

theorem iconsToGet_keys_nodup : (iconsToGet.map Prod.fst).Nodup := by decide

theorem buildIcons_no_write (o : Oracle) (it : List (Str × Str)) (p c : Str) :
    Event.writeFile p c ∉ (buildIcons o it).1 := by
  intro hmem
  rcases buildIcons_events o it _ hmem with h | h <;>
    simp [isLogErrorEvent, isSubprocessEvent] at h

theorem renderIconsSource_order_invariant (o : Oracle) {it1 it2 : List (Str × Str)}
    (h1 : it1.Perm iconsToGet) (h2 : it2.Perm iconsToGet) :
    renderIconsSource (buildIcons o it1).2 = renderIconsSource (buildIcons o it2).2 := by
  have hperm : ((buildIcons o it1).2).Perm ((buildIcons o it2).2) := by
    rw [buildIcons_snd_filterMap, buildIcons_snd_filterMap]
    exact (h1.trans h2.symm).filterMap _
  have hkn : (it1.map Prod.fst).Nodup :=
    ((h1.map Prod.fst).nodup_iff).mpr iconsToGet_keys_nodup
  have hnod : (((buildIcons o it1).2).map Prod.fst).Nodup := buildIcons_keys_nodup o it1 hkn
  have hs := sortByKey_eq_of_perm hperm hnod
  unfold renderIconsSource
  rw [hs]

theorem iconsRun_write_content (it : List (Str × Str)) (o : Oracle) (f c : Str)
    (hif : o.iconsFetch = .extracted)
    (hf : o.fmtSource (renderIconsSource (buildIcons o it).2) = some f)
    (hm : Event.writeFile iconsOutput c ∈ (generateIconsRun it o).1) :
    c = f := by
  simp only [generateIconsRun, hif] at hm
  rw [hf] at hm
  dsimp only at hm
  by_cases hwk : o.writeOk iconsOutput = true <;>
    simp only [hwk, if_true, Bool.false_eq_true, if_false] at hm <;>
    · try dsimp only at hm
      rcases List.mem_cons.mp hm with h | h
      · cases h
      · rcases List.mem_append.mp h with h | h
        · exact absurd h (buildIcons_no_write o it _ _)
        · rcases List.mem_cons.mp h with h | h
          · exact (Event.writeFile.inj h).2
          · cases h

theorem iconsRun_write_mem (it : List (Str × Str)) (o : Oracle) (f : Str)
    (hif : o.iconsFetch = .extracted)
    (hf : o.fmtSource (renderIconsSource (buildIcons o it).2) = some f) :
    Event.writeFile iconsOutput f ∈ (generateIconsRun it o).1 := by
  simp only [generateIconsRun, hif]
  rw [hf]
  dsimp only
  by_cases hwk : o.writeOk iconsOutput = true <;> simp [hwk]

/-- Claim C2: generation is deterministic for both output
source files — for a fixed pair of fetched inputs (the page bytes and the
extracted icon tree of one oracle), any two runs of the generation stages,
whatever iteration orders Go's maps give the loops, write byte-identical
adwaita_colors.go and adwaita_icons.go contents (entries render in sorted
key order, independent of map iteration order). -/
theorem C2_generationDeterministic (o : Oracle)
    (wt1 wt2 st1 st2 it1 it2 : List (Str × Str)) (c1 c2 i1 i2 : Str)
    (hw1 : wt1.Perm colorToGet) (hw2 : wt2.Perm colorToGet)
    (hs1 : st1.Perm standardColorToGet) (hs2 : st2.Perm standardColorToGet)
    (hi1 : it1.Perm iconsToGet) (hi2 : it2.Perm iconsToGet)
    (m1 : Event.writeFile colorSchemeOutput c1 ∈ (generateColorSchemeRun wt1 st1 o).1)
    (m2 : Event.writeFile colorSchemeOutput c2 ∈ (generateColorSchemeRun wt2 st2 o).1)
    (n1 : Event.writeFile iconsOutput i1 ∈ (generateIconsRun it1 o).1)
    (n2 : Event.writeFile iconsOutput i2 ∈ (generateIconsRun it2 o).1) :
    c1 = c2 ∧ i1 = i2 := by
  constructor
  · cases hcf : o.colorFetch with
    | getFail => simp [generateColorSchemeRun, hcf] at m1
    | readFail => simp [generateColorSchemeRun, hcf] at m1
    | body page =>
      simp only [generateColorSchemeRun, hcf] at m1 m2
      cases hbs1 : buildSchemes (findTableRows page) wt1 st1 with
      | panic => rw [hbs1] at m1; simp at m1
      | ok v1 =>
        rw [hbs1] at m1
        cases v1 with
        | error e => simp at m1
        | ok p1 =>
          obtain ⟨l1, d1⟩ := p1
          dsimp only at m1
          cases hbs2 : buildSchemes (findTableRows page) wt2 st2 with
          | panic => rw [hbs2] at m2; simp at m2
          | ok v2 =>
            rw [hbs2] at m2
            cases v2 with
            | error e => simp at m2
            | ok p2 =>
              obtain ⟨l2, d2⟩ := p2
              dsimp only at m2
              have hrender : renderColorSource l1 d1 = renderColorSource l2 d2 :=
                renderColorSource_order_invariant hw1 hw2 hs1 hs2 hbs1 hbs2
              cases hf1 : o.fmtSource (renderColorSource l1 d1) with
              | none => rw [hf1] at m1; simp at m1
              | some f1 =>
                rw [hf1] at m1
                have hf2 : o.fmtSource (renderColorSource l2 d2) = some f1 := by
                  rw [← hrender, hf1]
                rw [hf2] at m2
                have hc1 : c1 = f1 := by
                  by_cases hwk : o.writeOk colorSchemeOutput = true
                  · simp [hwk] at m1; exact m1
                  · simp [hwk] at m1; exact m1
                have hc2 : c2 = f1 := by
                  by_cases hwk : o.writeOk colorSchemeOutput = true
                  · simp [hwk] at m2; exact m2
                  · simp [hwk] at m2; exact m2
                rw [hc1, hc2]
  · cases hif : o.iconsFetch with
    | getFail => simp [generateIconsRun, hif] at n1
    | tarFail => simp [generateIconsRun, hif] at n1
    | extracted =>
      have hinv := renderIconsSource_order_invariant o hi1 hi2
      cases hf1 : o.fmtSource (renderIconsSource (buildIcons o it1).2) with
      | none =>
        simp only [generateIconsRun, hif] at n1
        rw [hf1] at n1
        dsimp only at n1
        rcases List.mem_cons.mp n1 with h | h
        · cases h
        · exact absurd h (buildIcons_no_write o it1 _ _)
      | some f1 =>
        have hf2 : o.fmtSource (renderIconsSource (buildIcons o it2).2) = some f1 := by
          rw [← hinv]
          exact hf1
        have e1 : i1 = f1 := iconsRun_write_content it1 o f1 i1 hif hf1 n1
        have e2 : i2 = f1 := iconsRun_write_content it2 o f1 i2 hif hf2 n2
        rw [e1, e2]

theorem countGets_append (url : Str) (a b : List Event) :
    countGets url (a ++ b) = countGets url a + countGets url b :=
  List.countP_append _ a b

theorem countGets_buildIcons (o : Oracle) (it : List (Str × Str)) (url : Str) :
    countGets url (buildIcons o it).1 = 0 := by
  rw [countGets, List.countP_eq_zero]
  intro e he
  rcases buildIcons_events o it e he with h | h <;>
    cases e <;> simp_all [isLogErrorEvent, isSubprocessEvent]

theorem colorRun_trace_shape (wt st : List (Str × Str)) (o : Oracle) :
    (generateColorSchemeRun wt st o).1 = [Event.httpGet adwaitaColorPage] ∨
    ∃ c, (generateColorSchemeRun wt st o).1 =
      [Event.httpGet adwaitaColorPage, Event.writeFile colorSchemeOutput c] := by
  unfold generateColorSchemeRun
  cases o.colorFetch with
  | getFail => left; rfl
  | readFail => left; rfl
  | body page =>
    dsimp only
    cases buildSchemes (findTableRows page) wt st with
    | panic => left; rfl
    | ok v =>
      cases v with
      | error e => left; rfl
      | ok p =>
        obtain ⟨l, d⟩ := p
        dsimp only
        cases o.fmtSource (renderColorSource l d) with
        | none => left; rfl
        | some f =>
          by_cases hw : o.writeOk colorSchemeOutput = true <;>
            simp [hw]

theorem iconsRun_trace_shape (it : List (Str × Str)) (o : Oracle) :
    (generateIconsRun it o).1 = [Event.httpGet adwaitaIconsPage] ∨
    (generateIconsRun it o).1 = Event.httpGet adwaitaIconsPage :: (buildIcons o it).1 ∨
    ∃ c, (generateIconsRun it o).1 =
      Event.httpGet adwaitaIconsPage :: (buildIcons o it).1 ++ [Event.writeFile iconsOutput c] := by
  unfold generateIconsRun
  cases o.iconsFetch with
  | getFail => left; rfl
  | tarFail => left; rfl
  | extracted =>
    dsimp only
    cases o.fmtSource (renderIconsSource (buildIcons o it).2) with
    | none => right; left; rfl
    | some f =>
      by_cases hw : o.writeOk iconsOutput = true <;>
        simp [hw]

theorem countGets_colorRun (wt st : List (Str × Str)) (o : Oracle) :
    countGets adwaitaColorPage (generateColorSchemeRun wt st o).1 = 1 ∧
    countGets adwaitaIconsPage (generateColorSchemeRun wt st o).1 = 0 := by
  rcases colorRun_trace_shape wt st o with h | ⟨c, h⟩ <;> rw [h] <;>
    constructor <;> simp [countGets, List.countP_cons, List.countP_nil] <;> decide

theorem countGets_iconsRun (it : List (Str × Str)) (o : Oracle) :
    countGets adwaitaIconsPage (generateIconsRun it o).1 = 1 ∧
    countGets adwaitaColorPage (generateIconsRun it o).1 = 0 := by
  have hb0 : countGets adwaitaIconsPage (buildIcons o it).1 = 0 := countGets_buildIcons o it _
  have hb1 : countGets adwaitaColorPage (buildIcons o it).1 = 0 := countGets_buildIcons o it _
  rcases iconsRun_trace_shape it o with h | h | ⟨c, h⟩ <;> rw [h]
  · constructor <;> simp [countGets, List.countP_cons, List.countP_nil] <;> decide
  · have e1 : Event.httpGet adwaitaIconsPage :: (buildIcons o it).1 =
      [Event.httpGet adwaitaIconsPage] ++ (buildIcons o it).1 := rfl
    rw [e1]
    simp only [countGets_append, hb0, hb1]
    constructor <;> simp [countGets, List.countP_cons, List.countP_nil] <;> decide
  · have e1 : Event.httpGet adwaitaIconsPage :: (buildIcons o it).1 ++
        [Event.writeFile iconsOutput c] =
      [Event.httpGet adwaitaIconsPage] ++
        ((buildIcons o it).1 ++ [Event.writeFile iconsOutput c]) := rfl
    rw [e1]
    simp only [countGets_append, hb0, hb1]
    constructor <;> simp [countGets, List.countP_cons, List.countP_nil] <;> decide

/-- Claim C6: each stage performs exactly one HTTP GET for its resource, with
no retry after a failed or partial fetch; in a whole run the color page is
fetched exactly once and the icon archive at most once (once when the color
stage succeeded). -/
theorem C6_singleGetPerResource (o : Oracle) (wt st it : List (Str × Str)) :
    countGets adwaitaColorPage (generateColorSchemeRun wt st o).1 = 1 ∧
    countGets adwaitaIconsPage (generateIconsRun it o).1 = 1 ∧
    countGets adwaitaColorPage (mainRun wt st it o) = 1 ∧
    countGets adwaitaIconsPage (mainRun wt st it o) ≤ 1 := by
  have hfatal1 : countGets adwaitaColorPage [Event.logFatal] = 0 := by decide
  have hfatal2 : countGets adwaitaIconsPage [Event.logFatal] = 0 := by decide
  refine ⟨(countGets_colorRun wt st o).1, (countGets_iconsRun it o).1, ?_, ?_⟩
  · unfold mainRun
    dsimp only
    cases h2 : (generateColorSchemeRun wt st o).2 with
    | panic =>
      dsimp only
      exact (countGets_colorRun wt st o).1
    | ok v =>
      cases v with
      | error e =>
        dsimp only
        rw [countGets_append, (countGets_colorRun wt st o).1, hfatal1]
      | ok u =>
        dsimp only
        cases h3 : (generateIconsRun it o).2 with
        | panic =>
          dsimp only
          rw [countGets_append, (countGets_colorRun wt st o).1,
            (countGets_iconsRun it o).2]
        | ok v2 =>
          cases v2 with
          | error e =>
            dsimp only
            rw [countGets_append, countGets_append, (countGets_colorRun wt st o).1,
              (countGets_iconsRun it o).2, hfatal1]
          | ok u2 =>
            dsimp only
            rw [countGets_append, (countGets_colorRun wt st o).1,
              (countGets_iconsRun it o).2]
  · unfold mainRun
    dsimp only
    cases h2 : (generateColorSchemeRun wt st o).2 with
    | panic =>
      dsimp only
      rw [(countGets_colorRun wt st o).2]
      omega
    | ok v =>
      cases v with
      | error e =>
        dsimp only
        rw [countGets_append, (countGets_colorRun wt st o).2, hfatal2]
        omega
      | ok u =>
        dsimp only
        cases h3 : (generateIconsRun it o).2 with
        | panic =>
          dsimp only
          rw [countGets_append, (countGets_colorRun wt st o).2,
            (countGets_iconsRun it o).1]
        | ok v2 =>
          cases v2 with
          | error e =>
            dsimp only
            rw [countGets_append, countGets_append, (countGets_colorRun wt st o).2,
              (countGets_iconsRun it o).1, hfatal2]
          | ok u2 =>
            dsimp only
            rw [countGets_append, (countGets_colorRun wt st o).2,
              (countGets_iconsRun it o).1]

/-- Claim C7: the external converter subprocess is invoked only for the
forcePNG icons (exactly IconNameFileAudio and IconNameFileApplication); for
exactly those the bundled path has its .svg suffix replaced by .png, and for
every other icon no subprocess runs and the original path is bundled. -/
theorem C7_forcePNGSubprocess (o : Oracle) (name file : Str) :
    forcePNG.map Prod.fst = [str "IconNameFileAudio", str "IconNameFileApplication"] ∧
    (∀ exe f, Event.subprocessRun exe f ∈ (processIcon o name file).1 →
      forcePNGHas name = true) ∧
    (forcePNGHas name = false →
      (processIcon o name file).1.countP isSubprocessEvent = 0 ∧
      iconFinalPath o.tmpDir name file = iconBasePath o.tmpDir file) ∧
    (forcePNGHas name = true →
      iconFinalPath o.tmpDir name file =
        trimSuffix (iconBasePath o.tmpDir file) (str ".svg") ++ str ".png" ∧
      (¬ file = [] → ¬ o.inkscape = [] →
        Event.subprocessRun o.inkscape (iconBasePath o.tmpDir file) ∈
          (processIcon o name file).1)) := by
  refine ⟨by decide, ?_, ?_, ?_⟩
  · intro exe f hmem
    by_cases hp : forcePNGHas name = true
    · exact hp
    · exfalso
      rw [Bool.not_eq_true] at hp
      by_cases hf : file = [] <;>
        cases hfs : o.fs (iconFinalPath o.tmpDir name file) <;>
          simp [processIcon, hf, hp, hfs] at hmem
  · intro hp
    constructor
    · by_cases hf : file = [] <;>
        cases hfs : o.fs (iconFinalPath o.tmpDir name file) <;>
          simp [processIcon, hf, hp, hfs, isSubprocessEvent]
    · simp [iconFinalPath, hp]
  · intro hp
    constructor
    · simp [iconFinalPath, hp]
    · intro hf hi
      cases hfs : o.fs (iconFinalPath o.tmpDir name file) <;>
        simp [processIcon, hf, hp, hi, hfs]

/-- Claim C8: a successfully bundled icon record has StaticName equal to the
base filename of the loaded path and Content equal to the raw bytes of the
loaded resource file, unmodified. -/
theorem C8_bundledIconRecord (o : Oracle) (name file bytes : Str)
    (h1 : ¬ file = [])
    (h2 : o.fs (iconFinalPath o.tmpDir name file) = some bytes) :
    (processIcon o name file).2 =
      some (name, ⟨pathBase (iconFinalPath o.tmpDir name file), bytes⟩) := by
  simp [processIcon, h1, h2]

theorem C8_witness :
    (processIcon oIcons (str "IconNameCancel") (str "symbolic/ui/window-close-symbolic.svg")).2 =
      some (str "IconNameCancel", ⟨str "window-close-symbolic.svg", str "<svg/>"⟩) := by
  have h := C8_bundledIconRecord oIcons (str "IconNameCancel")
    (str "symbolic/ui/window-close-symbolic.svg") (str "<svg/>") (by decide) rfl
  rw [h]
  rfl

theorem C7_witness :
    forcePNG.map Prod.fst = [str "IconNameFileAudio", str "IconNameFileApplication"] ∧
    iconFinalPath oIcons.tmpDir (str "IconNameFileAudio")
        (str "scalable/mimetypes/audio-x-generic.svg") =
      trimSuffix (iconBasePath oIcons.tmpDir (str "scalable/mimetypes/audio-x-generic.svg"))
        (str ".svg") ++ str ".png" ∧
    Event.subprocessRun oIcons.inkscape
        (iconBasePath oIcons.tmpDir (str "scalable/mimetypes/audio-x-generic.svg")) ∈
      (processIcon oIcons (str "IconNameFileAudio")
        (str "scalable/mimetypes/audio-x-generic.svg")).1 ∧
    iconFinalPath oIcons.tmpDir (str "IconNameCancel")
        (str "symbolic/ui/window-close-symbolic.svg") =
      iconBasePath oIcons.tmpDir (str "symbolic/ui/window-close-symbolic.svg") ∧
    (processIcon oIcons (str "IconNameCancel")
        (str "symbolic/ui/window-close-symbolic.svg")).1.countP isSubprocessEvent = 0 := by
  have hA := C7_forcePNGSubprocess oIcons (str "IconNameFileAudio")
    (str "scalable/mimetypes/audio-x-generic.svg")
  have hC := C7_forcePNGSubprocess oIcons (str "IconNameCancel")
    (str "symbolic/ui/window-close-symbolic.svg")
  exact ⟨hA.1, (hA.2.2.2 (by decide)).1,
    (hA.2.2.2 (by decide)).2 (by decide) (by decide),
    (hC.2.2.1 (by decide)).2, (hC.2.2.1 (by decide)).1⟩

set_option maxRecDepth 1000000 in
/-- Claim C1 is refuted on the code: with every icon load failing, the icon
generation stage logs one error per icon, skips them all, and still finishes
successfully, writing the output file — it does not exit, and it silently
skips the failed records. -/
theorem C1_counterexample :
    (generateIconsRun iconsToGet oW).2 = .ok (.ok ()) ∧
    (generateIconsRun iconsToGet oW).1.countP isLogErrorEvent = 85 ∧
    (generateIconsRun iconsToGet oW).1.countP isWriteEvent = 1 ∧
    (buildIcons oW iconsToGet).2 = [] :=
  ⟨rfl, rfl, rfl, rfl⟩

/-- Claim C1 (amended): every stage-level failure is handled by logging and
terminating — a failing page fetch or body read, a failing icon-archive
fetch or tar extraction, a failing format.Source or a failing write makes
the stage return a non-nil error, and main then exits via log.Fatal without
running later stages.  The one exception the code makes: a per-icon load
failure inside generateIcons is logged with log.Println and the record is
skipped with continue; the loop carries on and the run still formats and
writes its output. -/
theorem C1_amended (o1 o2 o3 : Oracle) (name file : Str)
    (wt st it restT : List (Str × Str))
    (h1 : ¬ file = [])
    (h2 : o1.fs (iconFinalPath o1.tmpDir name file) = none)
    (h3 : stageErrored (generateColorSchemeRun wt st o2).2 = true)
    (h4 : (generateColorSchemeRun wt st o3).2 = .ok (.ok ()))
    (h5 : stageErrored (generateIconsRun it o3).2 = true) :
    Event.logError name (iconFinalPath o1.tmpDir name file) ∈ (processIcon o1 name file).1 ∧
    (processIcon o1 name file).2 = none ∧
    (buildIcons o1 ((name, file) :: restT)).2 = (buildIcons o1 restT).2 ∧
    mainRun wt st it o2 = (generateColorSchemeRun wt st o2).1 ++ [Event.logFatal] ∧
    mainRun wt st it o3 =
      (generateColorSchemeRun wt st o3).1 ++ (generateIconsRun it o3).1 ++ [Event.logFatal] ∧
    (∀ o : Oracle, o.colorFetch = .getFail →
      (generateColorSchemeRun wt st o).2 = .ok (.error .getPage)) ∧
    (∀ o : Oracle, o.colorFetch = .readFail →
      (generateColorSchemeRun wt st o).2 = .ok (.error .readBody)) ∧
    (∀ o : Oracle, ∀ page l d, o.colorFetch = .body page →
      buildSchemes (findTableRows page) wt st = .ok (.ok (l, d)) →
      o.fmtSource (renderColorSource l d) = none →
      (generateColorSchemeRun wt st o).2 = .ok (.error .formatSource)) ∧
    (∀ o : Oracle, ∀ page l d f, o.colorFetch = .body page →
      buildSchemes (findTableRows page) wt st = .ok (.ok (l, d)) →
      o.fmtSource (renderColorSource l d) = some f →
      o.writeOk colorSchemeOutput = false →
      (generateColorSchemeRun wt st o).2 = .ok (.error (.writeFail colorSchemeOutput))) ∧
    (∀ o : Oracle, o.iconsFetch = .getFail →
      (generateIconsRun it o).2 = .ok (.error .getIcons)) ∧
    (∀ o : Oracle, o.iconsFetch = .tarFail →
      (generateIconsRun it o).2 = .ok (.error .tarExtract)) ∧
    (∀ o : Oracle, o.iconsFetch = .extracted →
      o.fmtSource (renderIconsSource (buildIcons o it).2) = none →
      (generateIconsRun it o).2 = .ok (.error .formatSource)) ∧
    (∀ o : Oracle, ∀ f, o.iconsFetch = .extracted →
      o.fmtSource (renderIconsSource (buildIcons o it).2) = some f →
      o.writeOk iconsOutput = false →
      (generateIconsRun it o).2 = .ok (.error (.writeFail iconsOutput))) := by
  have hskip : (processIcon o1 name file).2 = none := by
    simp [processIcon, h1, h2]
  refine ⟨?_, hskip, ?_, ?_, ?_, ?_, ?_, ?_, ?_, ?_, ?_, ?_, ?_⟩
  · simp [processIcon, h1, h2]
  · simp only [buildIcons, hskip]
  · unfold mainRun
    dsimp only
    cases hc : (generateColorSchemeRun wt st o2).2 with
    | panic => rw [hc] at h3; simp [stageErrored] at h3
    | ok v =>
      cases v with
      | error e => rfl
      | ok u => rw [hc] at h3; simp [stageErrored] at h3
  · unfold mainRun
    dsimp only
    rw [h4]
    dsimp only
    cases hc : (generateIconsRun it o3).2 with
    | panic => rw [hc] at h5; simp [stageErrored] at h5
    | ok v =>
      cases v with
      | error e => rfl
      | ok u => rw [hc] at h5; simp [stageErrored] at h5
  · intro o hcf
    simp [generateColorSchemeRun, hcf]
  · intro o hcf
    simp [generateColorSchemeRun, hcf]
  · intro o page l d hcf hbs hf
    simp only [generateColorSchemeRun, hcf]
    rw [hbs]
    dsimp only
    rw [hf]
  · intro o page l d f hcf hbs hf hwk
    simp only [generateColorSchemeRun, hcf]
    rw [hbs]
    dsimp only
    rw [hf]
    dsimp only
    simp [hwk]
  · intro o hif
    simp [generateIconsRun, hif]
  · intro o hif
    simp [generateIconsRun, hif]
  · intro o hif hf
    simp only [generateIconsRun, hif]
    rw [hf]
  · intro o f hif hf hwk
    simp only [generateIconsRun, hif]
    rw [hf]
    dsimp only
    simp [hwk]

set_option maxRecDepth 1000000 in
theorem C1_witness :
    Event.logError (str "IconNameCancel")
        (iconFinalPath oW.tmpDir (str "IconNameCancel")
          (str "symbolic/ui/window-close-symbolic.svg")) ∈
      (processIcon oW (str "IconNameCancel") (str "symbolic/ui/window-close-symbolic.svg")).1 ∧
    (processIcon oW (str "IconNameCancel") (str "symbolic/ui/window-close-symbolic.svg")).2 = none ∧
    (buildIcons oW [(str "IconNameCancel", str "symbolic/ui/window-close-symbolic.svg")]).2 =
      (buildIcons oW []).2 ∧
    mainRun colorToGet standardColorToGet iconsToGet oFetchFail =
      (generateColorSchemeRun colorToGet standardColorToGet oFetchFail).1 ++ [Event.logFatal] ∧
    mainRun colorToGet standardColorToGet iconsToGet oIconsFail =
      (generateColorSchemeRun colorToGet standardColorToGet oIconsFail).1 ++
        (generateIconsRun iconsToGet oIconsFail).1 ++ [Event.logFatal] ∧
    (generateIconsRun iconsToGet oIconsFail).2 = .ok (.error .getIcons) := by
  have h := C1_amended oW oFetchFail oIconsFail
    (str "IconNameCancel") (str "symbolic/ui/window-close-symbolic.svg")
    colorToGet standardColorToGet iconsToGet []
    (by decide) rfl rfl rfl rfl
  exact ⟨h.1, h.2.1, h.2.2.1, h.2.2.2.1, h.2.2.2.2.1,
    h.2.2.2.2.2.2.2.2.2.1 oIconsFail rfl⟩

set_option maxRecDepth 1000000 in
/-- Claim C4 is refuted on the earlier generator: when format.Source fails,
the run of its main has already created (truncated) the output file — the
trace created the file, then hit log.Fatal, with no write. -/
theorem C4_counterexample :
    mainV1Run colorToGetV1 oFmtFail =
      [Event.httpGet adwaitaColorPage, Event.createFile outputV1, Event.logFatal] := rfl

/-- Claim C4 (amended): in generateColorScheme and generateIcons the output
file is written as the very last step, only after rendering and formatting
succeeded, and the icon loop itself never creates or writes files; in the
EARLIER generator's main, however, os.Create opens (and truncates) the
output file before the template is parsed, executed or formatted, so a later
failure leaves the created file behind. -/
theorem C4_amended (o : Oracle) (wt st it : List (Str × Str)) (c : Str)
    (hw : Event.writeFile colorSchemeOutput c ∈ (generateColorSchemeRun wt st o).1) :
    ((generateColorSchemeRun wt st o).1 =
        [Event.httpGet adwaitaColorPage, Event.writeFile colorSchemeOutput c] ∧
      ∃ page l d, o.colorFetch = .body page ∧
        buildSchemes (findTableRows page) wt st = .ok (.ok (l, d)) ∧
        o.fmtSource (renderColorSource l d) = some c) ∧
    (∀ c2, Event.writeFile iconsOutput c2 ∈ (generateIconsRun it o).1 →
      (generateIconsRun it o).1 =
        Event.httpGet adwaitaIconsPage :: (buildIcons o it).1 ++
          [Event.writeFile iconsOutput c2] ∧
      o.fmtSource (renderIconsSource (buildIcons o it).2) = some c2 ∧
      ∀ e ∈ (buildIcons o it).1, isWriteEvent e = false ∧ isCreateEvent e = false) ∧
    (∀ o1 : Oracle, ∀ page1 : Str, ∀ l1 d1 : List (Str × colorInfoV1),
      o1.colorFetch = .body page1 →
      o1.writeOk outputV1 = true →
      buildSchemesV1 (findTableRows page1) colorToGetV1 = .ok (.ok (l1, d1)) →
      Event.createFile outputV1 ∈ mainV1Run colorToGetV1 o1) := by
  have hbuildev : ∀ e ∈ (buildIcons o it).1,
      isWriteEvent e = false ∧ isCreateEvent e = false := by
    intro e he
    rcases buildIcons_events o it e he with h | h <;>
      cases e <;> simp_all [isLogErrorEvent, isSubprocessEvent, isWriteEvent, isCreateEvent]
  refine ⟨?_, ?_, ?_⟩
  · cases hcf : o.colorFetch with
    | getFail => simp [generateColorSchemeRun, hcf] at hw
    | readFail => simp [generateColorSchemeRun, hcf] at hw
    | body page =>
      simp only [generateColorSchemeRun, hcf] at hw ⊢
      cases hbs : buildSchemes (findTableRows page) wt st with
      | panic => rw [hbs] at hw; simp at hw
      | ok v =>
        rw [hbs] at hw
        cases v with
        | error e => simp at hw
        | ok p =>
          obtain ⟨l, d⟩ := p
          dsimp only at hw ⊢
          cases hf : o.fmtSource (renderColorSource l d) with
          | none => rw [hf] at hw; simp at hw
          | some f =>
            rw [hf] at hw
            dsimp only at hw ⊢
            have hc : c = f := by
              by_cases hwk : o.writeOk colorSchemeOutput = true <;>
                simp [hwk] at hw <;> exact hw
            subst hc
            constructor
            · by_cases hwk : o.writeOk colorSchemeOutput = true <;> simp [hwk]
            · exact ⟨page, l, d, rfl, hbs, hf⟩
  · intro c2 hm
    cases hif : o.iconsFetch with
    | getFail => simp [generateIconsRun, hif] at hm
    | tarFail => simp [generateIconsRun, hif] at hm
    | extracted =>
      simp only [generateIconsRun, hif] at hm ⊢
      cases hf : o.fmtSource (renderIconsSource (buildIcons o it).2) with
      | none =>
        rw [hf] at hm
        dsimp only at hm
        simp only [List.mem_cons] at hm
        rcases hm with hm | hm
        · cases hm
        · exact absurd ((hbuildev _ hm).1) (by simp [isWriteEvent])
      | some f =>
        rw [hf] at hm
        dsimp only at hm ⊢
        have hc : c2 = f := by
          by_cases hwk : o.writeOk iconsOutput = true <;>
            simp only [hwk, if_true, if_false, Bool.false_eq_true] at hm <;>
            · try dsimp only at hm
              rcases List.mem_cons.mp hm with h | h
              · cases h
              · rcases List.mem_append.mp h with h | h
                · exact absurd ((hbuildev _ h).1) (by simp [isWriteEvent])
                · rcases List.mem_cons.mp h with h | h
                  · exact (Event.writeFile.inj h).2
                  · cases h
        subst hc
        refine ⟨?_, rfl, hbuildev⟩
        by_cases hwk : o.writeOk iconsOutput = true <;> simp [hwk]
  · intro o1 page1 l1 d1 hcf hwk hbs
    unfold mainV1Run
    rw [hcf]
    try dsimp only
    rw [hbs]
    try dsimp only
    rw [hwk]
    try dsimp only
    cases o1.fmtSource (renderColorSourceV1 l1 d1) <;> simp

set_option maxRecDepth 1000000 in
theorem wTraceCanonical : (generateColorSchemeRun colorToGet standardColorToGet oW).1 =
    [Event.httpGet adwaitaColorPage, Event.writeFile colorSchemeOutput wContent] := rfl

theorem C4_witness :
    (generateColorSchemeRun colorToGet standardColorToGet oW).1 =
      [Event.httpGet adwaitaColorPage, Event.writeFile colorSchemeOutput wContent] ∧
    Event.createFile outputV1 ∈ mainV1Run colorToGetV1 oFmtFail := by
  have h := C4_amended oW colorToGet standardColorToGet iconsToGet wContent
    (wTraceCanonical ▸ List.mem_cons.mpr (Or.inr (List.mem_cons_self _ _)))
  exact ⟨h.1.1, h.2.2 oFmtFail [] v1EmptySchemes.1 v1EmptySchemes.2 rfl rfl rfl⟩

set_option maxRecDepth 1000000 in
theorem C2_witness :
    Event.writeFile colorSchemeOutput wContent ∈
      (generateColorSchemeRun (colorToGet.reverse) (standardColorToGet.reverse) oW).1 ∧
    Event.writeFile iconsOutput iContent ∈ (generateIconsRun (iconsToGet.reverse) oW).1 ∧
    (wContent = wContent ∧ iContent = iContent) :=
  ⟨wTraceReversed ▸ List.mem_cons.mpr (Or.inr (List.mem_cons_self _ _)),
   iconsRun_write_mem (iconsToGet.reverse) oW iContent rfl rfl,
   C2_generationDeterministic oW colorToGet.reverse colorToGet
     standardColorToGet.reverse standardColorToGet iconsToGet.reverse iconsToGet
     wContent wContent iContent iContent
     (List.reverse_perm _) (List.Perm.refl _) (List.reverse_perm _) (List.Perm.refl _)
     (List.reverse_perm _) (List.Perm.refl _)
     (wTraceReversed ▸ List.mem_cons.mpr (Or.inr (List.mem_cons_self _ _)))
     (wTraceCanonical ▸ List.mem_cons.mpr (Or.inr (List.mem_cons_self _ _)))
     (iconsRun_write_mem (iconsToGet.reverse) oW iContent rfl rfl)
     (iconsRun_write_mem iconsToGet oW iContent rfl rfl)⟩
